import Mathlib

/-!
Verification of the `autonomous_defense_firm` knowledge-base, ethical-filter
and LLM-manager modules against their natural-language specification.

The Python code is shallowly embedded: Python dicts become association lists
over an inductive `Val` value type (insertion-ordered, unique keys, with
Python's assignment/merge semantics), raised exceptions become `Except`
results, and `uuid.uuid4()` is modelled by a per-store counter of pairwise
distinct id tokens (`Val.uid n` standing for the n-th generated UUID string,
which are pairwise distinct in reality with probability 1).
-/

/-- A Python value as used by the repository: strings, booleans, lists,
dictionaries, `None`, and UUID tokens (`uid n` models the string form of the
n-th UUID generated by `uuid.uuid4()`; distinct indices model the distinct
strings uuid4 produces). -/
inductive Val where
  | str (s : String)
  | bool (b : Bool)
  | int (n : Int)
  | list (vs : List Val)
  | dict (d : List (String × Val))
  | uid (n : Nat)
  | null
deriving Repr

/-- Structural equality on `Val`, modelling Python `==` on these values. -/
def valBeq : Val → Val → Bool
  | .str a, .str b => a == b
  | .bool a, .bool b => a == b
  | .int a, .int b => a == b
  | .uid a, .uid b => a == b
  | .null, .null => true
  | .list as, .list bs => valListBeq as bs
  | .dict as, .dict bs => valDictBeq as bs
  | _, _ => false
where
  valListBeq : List Val → List Val → Bool
    | [], [] => true
    | a :: as, b :: bs => valBeq a b && valListBeq as bs
    | _, _ => false
  valDictBeq : List (String × Val) → List (String × Val) → Bool
    | [], [] => true
    | (ka, va) :: as, (kb, vb) :: bs => ka == kb && valBeq va vb && valDictBeq as bs
    | _, _ => false

instance : BEq Val := ⟨valBeq⟩

/-- Python truthiness of a `Val` (`bool(v)`): empty string, `False`, `0`,
empty list, empty dict and `None` are falsy. -/
def truthy : Val → Bool
  | .str s => s ≠ ""
  | .bool b => b
  | .int n => n ≠ 0
  | .list vs => !vs.isEmpty
  | .dict d => !d.isEmpty
  | .uid _ => true
  | .null => false

/-- A Python dict with string keys: insertion-ordered association list with
unique keys (all dict literals and dict operations in the source preserve
key uniqueness). -/
abbrev Dict := List (String × Val)

/-- `d.get(k)` / `d[k]` lookup: the value bound to `k`, if present. -/
def getK (d : Dict) (k : String) : Option Val :=
  match d.find? (fun p => p.1 == k) with
  | some p => some p.2
  | none => none

/-- `k in d` for a Python dict. -/
def hasKey (d : Dict) (k : String) : Bool :=
  (getK d k).isSome

/-- Truthiness of `d.get(k)` (Python's `if d.get(k):` — a missing key gives
`None`, which is falsy). -/
def getTruthy (d : Dict) (k : String) : Bool :=
  match getK d k with
  | some v => truthy v
  | none => false

/-- Python dict assignment `d[k] = v`: replaces in place if `k` is present
(keeping its position), otherwise appends the new binding. -/
def setK (d : Dict) (k : String) (v : Val) : Dict :=
  if hasKey d k then
    d.map (fun p => if p.1 == k then (k, v) else p)
  else
    d ++ [(k, v)]

/-- Python `d.update(u)` and `{**d, **u}`: assign every binding of `u` into
`d` in order. -/
def updateD (d u : Dict) : Dict :=
  u.foldl (fun acc p => setK acc p.1 p.2) d

/-- The keys of a dict, in order. -/
def keysOf (d : Dict) : List String := d.map (fun p => p.1)

-- Basic dict lemmas --

theorem getK_cons (p : String × Val) (d : Dict) (k : String) :
    getK (p :: d) k = if p.1 == k then some p.2 else getK d k := by
  unfold getK
  simp only [List.find?_cons]
  cases h : (p.1 == k) <;> simp

theorem getK_replace_self (d : Dict) (k : String) (v : Val)
    (h : hasKey d k = true) :
    getK (d.map (fun p => if p.1 == k then (k, v) else p)) k = some v := by
  induction d with
  | nil => simp [hasKey, getK] at h
  | cons p rest ih =>
    by_cases hk : p.1 = k
    · simp [getK_cons, hk]
    · have hne : (p.1 == k) = false := by simp [hk]
      have h' : hasKey rest k = true := by
        simpa [hasKey, getK, List.find?_cons, hne] using h
      simp only [List.map_cons, hne, if_false, Bool.false_eq_true]
      rw [getK_cons]
      simp only [hne, Bool.false_eq_true, if_false]
      exact ih h'

theorem getK_replace_other (d : Dict) (k k' : String) (v : Val) (h : k' ≠ k) :
    getK (d.map (fun p => if p.1 == k then (k, v) else p)) k' = getK d k' := by
  induction d with
  | nil => rfl
  | cons p rest ih =>
    by_cases hk : p.1 = k
    · have hp : (p.1 == k) = true := by simp [hk]
      have hkk' : (k == k') = false := beq_eq_false_iff_ne.mpr (Ne.symm h)
      have hpk' : (p.1 == k') = false := by
        rw [hk]; exact hkk'
      simp only [List.map_cons, hp, if_true]
      rw [getK_cons, getK_cons]
      simp only [hkk', hpk', Bool.false_eq_true, if_false]
      exact ih
    · have hp : (p.1 == k) = false := by simp [hk]
      simp only [List.map_cons, hp, Bool.false_eq_true, if_false]
      rw [getK_cons, getK_cons]
      cases hpk : (p.1 == k') with
      | true => rfl
      | false => simp only [Bool.false_eq_true, if_false]; exact ih

theorem getK_append_one (d : Dict) (k k' : String) (v : Val) :
    getK (d ++ [(k, v)]) k' =
      if hasKey d k' then getK d k' else (if k == k' then some v else none) := by
  induction d with
  | nil =>
    cases hkk : (k == k') with
    | true =>
      have : k = k' := by simpa using hkk
      simp [getK, hasKey, List.find?_cons, hkk, this]
    | false =>
      have : ¬ k = k' := by simpa using hkk
      simp [getK, hasKey, List.find?_cons, hkk, this]
  | cons p rest ih =>
    simp only [List.cons_append]
    rw [getK_cons]
    cases hpk : (p.1 == k') with
    | true =>
      have : hasKey (p :: rest) k' = true := by
        simp [hasKey, getK, List.find?_cons, hpk]
      rw [this, getK_cons, hpk]
      simp
    | false =>
      have hh : hasKey (p :: rest) k' = hasKey rest k' := by
        simp [hasKey, getK, List.find?_cons, hpk]
      rw [hh, ih]
      simp only [Bool.false_eq_true, if_false]
      split
      · rw [getK_cons, hpk]; simp
      · rfl

theorem getK_setK_self (d : Dict) (k : String) (v : Val) :
    getK (setK d k v) k = some v := by
  unfold setK
  split
  · next h => exact getK_replace_self d k v h
  · next h =>
    rw [getK_append_one]
    simp only [Bool.not_eq_true] at h
    rw [h]
    simp

theorem getK_setK_other (d : Dict) (k k' : String) (v : Val) (h : k' ≠ k) :
    getK (setK d k v) k' = getK d k' := by
  unfold setK
  split
  · exact getK_replace_other d k k' v h
  · rw [getK_append_one]
    have hkk : (k == k') = false := beq_eq_false_iff_ne.mpr (Ne.symm h)
    rw [hkk]
    split
    · rfl
    · next hh =>
      simp only [Bool.not_eq_true, hasKey, Option.isSome] at hh
      revert hh
      unfold getK
      split <;> simp_all

theorem getK_updateD_not_mem (d : Dict) (u : Dict) (k : String)
    (h : ∀ p ∈ u, p.1 ≠ k) : getK (updateD d u) k = getK d k := by
  induction u generalizing d with
  | nil => rfl
  | cons p rest ih =>
    unfold updateD
    simp only [List.foldl_cons]
    have h1 : ∀ q ∈ rest, q.1 ≠ k := fun q hq => h q (List.mem_cons_of_mem _ hq)
    have := ih (setK d p.1 p.2) h1
    unfold updateD at this
    rw [this]
    exact getK_setK_other d p.1 k p.2 (fun e => h p (List.mem_cons_self _ _) e.symm)

-- ===================================================================
-- KnowledgeBase state (knowledge_base.py, class KnowledgeBase)
-- ===================================================================

/-- The in-memory `KnowledgeBase` state. The 20 list attributes set by
`__init__` plus the attributes created lazily outside `__init__`
(`users`, `profiles`, `active_profile_id`; an absent attribute is
observationally an empty collection, which is how the accessors treat it).
`nextId` is the uuid4 counter of the model. -/
structure KB where
  primary_sources : List String := []
  secondary_sources : List String := []
  tertiary_sources : List String := []
  documents : List Dict := []
  statutes : List Dict := []
  cases : List Dict := []
  clients : List Dict := []
  case_files : List Dict := []
  legal_research : List Dict := []
  contracts : List Dict := []
  internal_docs : List Dict := []
  calendar_events : List Dict := []
  notes : List Dict := []
  feedback : List Dict := []
  ethics_records : List Dict := []
  financial_records : List Dict := []
  communication_logs : List Dict := []
  templates : List Dict := []
  external_data : List Dict := []
  llms : List Dict := []
  users : List Dict := []
  profiles : List Dict := []
  active_profile_id : Option Val := none
  nextId : Nat := 0

/-- A freshly constructed `KnowledgeBase()`. -/
def initKB : KB := {}

/-- `self.__init__()` called on an existing instance (the file-not-found
branch of `load_from_file`): resets exactly the 20 collections listed in
`__init__`; the lazily created attributes (`users`, `profiles`,
`active_profile_id`) are not touched by `__init__` and survive. -/
def reinitKB (kb : KB) : KB :=
  { users := kb.users, profiles := kb.profiles,
    active_profile_id := kb.active_profile_id, nextId := kb.nextId }

/-- `_add_ethics_fields`: copies the dict and conditionally attaches
`ethical_tags` / `ethical_guideline_ids` (only when the arguments are not
`None`). -/
def add_ethics_fields (data : Dict) (ethical_tags ethical_guideline_ids : Option Val) : Dict :=
  let d := match ethical_tags with
    | some t => setK data "ethical_tags" t
    | none => data
  match ethical_guideline_ids with
  | some g => setK d "ethical_guideline_ids" g
  | none => d

-- Validators (raise ValueError ⇒ `Except.error message`) --

/-- `validate_document`. -/
def validate_document (doc : Dict) : Except String Unit :=
  if !hasKey doc "title" || !hasKey doc "text" then
    .error "Document must have \x27title\x27 and \x27text\x27 fields."
  else .ok ()

/-- `validate_statute`. -/
def validate_statute (st : Dict) : Except String Unit :=
  if !hasKey st "section" || !hasKey st "title" || !hasKey st "text" then
    .error "Statute must have \x27section\x27, \x27title\x27, and \x27text\x27 fields."
  else .ok ()

/-- `validate_case`. -/
def validate_case (c : Dict) : Except String Unit :=
  if !hasKey c "case_number" || !hasKey c "title" || !hasKey c "text" then
    .error "Case must have \x27case_number\x27, \x27title\x27, and \x27text\x27 fields."
  else .ok ()

/-- `validate_client` (`if not client.get('name')` — truthiness, so an empty
name also fails). -/
def validate_client (c : Dict) : Except String Unit :=
  if !getTruthy c "name" then
    .error "Client must have a non-empty name."
  else if !getTruthy c "contact" then
    .error "Client must have a contact."
  else .ok ()

/-- `validate_case_file`. -/
def validate_case_file (cf : Dict) : Except String Unit :=
  if !hasKey cf "title" || !hasKey cf "client_id" then
    .error "Case file must have \x27title\x27 and \x27client_id\x27 fields."
  else .ok ()

/-- `validate_note`. -/
def validate_note (n : Dict) : Except String Unit :=
  if !hasKey n "author" || !hasKey n "body" then
    .error "Note must have \x27author\x27 and \x27body\x27 fields."
  else .ok ()

/-- `validate_contract`. -/
def validate_contract (c : Dict) : Except String Unit :=
  if !hasKey c "parties" || !hasKey c "effective_date" then
    .error "Contract must have \x27parties\x27 and \x27effective_date\x27 fields."
  else .ok ()

/-- `validate_internal_doc`. -/
def validate_internal_doc (d : Dict) : Except String Unit :=
  if !hasKey d "title" || !hasKey d "content" then
    .error "Internal doc must have \x27title\x27 and \x27content\x27 fields."
  else .ok ()

/-- `create_document`. -/
def create_document (kb : KB) (doc : Dict)
    (ethical_tags ethical_guideline_ids : Option Val) : KB × Except String Dict :=
  match validate_document doc with
  | .error e => (kb, .error e)
  | .ok _ =>
    let d := add_ethics_fields doc ethical_tags ethical_guideline_ids
    let d := setK d "id" (.uid kb.nextId)
    ({ kb with documents := kb.documents ++ [d], nextId := kb.nextId + 1 }, .ok d)

/-- `create_statute`: validates, appends to `statutes`, then also calls
`create_document({**statute, 'type': 'statute'})` (whose own exception,
if any, propagates after the statute was appended). -/
def create_statute (kb : KB) (st : Dict)
    (ethical_tags ethical_guideline_ids : Option Val) : KB × Except String Dict :=
  match validate_statute st with
  | .error e => (kb, .error e)
  | .ok _ =>
    let s := add_ethics_fields st ethical_tags ethical_guideline_ids
    let s := setK s "id" (.uid kb.nextId)
    let kb1 := { kb with statutes := kb.statutes ++ [s], nextId := kb.nextId + 1 }
    match create_document kb1 (updateD s [("type", .str "statute")]) none none with
    | (kb2, .ok _) => (kb2, .ok s)
    | (kb2, .error e) => (kb2, .error e)

/-- `create_case`: like `create_statute`, with document type `'case'`. -/
def create_case (kb : KB) (c : Dict)
    (ethical_tags ethical_guideline_ids : Option Val) : KB × Except String Dict :=
  match validate_case c with
  | .error e => (kb, .error e)
  | .ok _ =>
    let s := add_ethics_fields c ethical_tags ethical_guideline_ids
    let s := setK s "id" (.uid kb.nextId)
    let kb1 := { kb with cases := kb.cases ++ [s], nextId := kb.nextId + 1 }
    match create_document kb1 (updateD s [("type", .str "case")]) none none with
    | (kb2, .ok _) => (kb2, .ok s)
    | (kb2, .error e) => (kb2, .error e)

/-- `create_client`. -/
def create_client (kb : KB) (c : Dict)
    (ethical_tags ethical_guideline_ids vulnerability_indicator : Option Val) :
    KB × Except String Dict :=
  match validate_client c with
  | .error e => (kb, .error e)
  | .ok _ =>
    let s := add_ethics_fields c ethical_tags ethical_guideline_ids
    let s := match vulnerability_indicator with
      | some v => setK s "vulnerability_indicator" v
      | none => s
    let s := setK s "id" (.uid kb.nextId)
    ({ kb with clients := kb.clients ++ [s], nextId := kb.nextId + 1 }, .ok s)

/-- `create_case_file`. -/
def create_case_file (kb : KB) (cf : Dict)
    (ethical_tags ethical_guideline_ids : Option Val) : KB × Except String Dict :=
  match validate_case_file cf with
  | .error e => (kb, .error e)
  | .ok _ =>
    let s := add_ethics_fields cf ethical_tags ethical_guideline_ids
    let s := setK s "id" (.uid kb.nextId)
    ({ kb with case_files := kb.case_files ++ [s], nextId := kb.nextId + 1 }, .ok s)

/-- `create_note`. -/
def create_note (kb : KB) (n : Dict)
    (ethical_tags ethical_guideline_ids : Option Val) : KB × Except String Dict :=
  match validate_note n with
  | .error e => (kb, .error e)
  | .ok _ =>
    let s := add_ethics_fields n ethical_tags ethical_guideline_ids
    let s := setK s "id" (.uid kb.nextId)
    ({ kb with notes := kb.notes ++ [s], nextId := kb.nextId + 1 }, .ok s)

/-- `create_contract`: validates, appends to `contracts`, then calls
`create_document({**contract, 'type': 'contract'})`. -/
def create_contract (kb : KB) (c : Dict)
    (ethical_tags ethical_guideline_ids : Option Val) : KB × Except String Dict :=
  match validate_contract c with
  | .error e => (kb, .error e)
  | .ok _ =>
    let s := add_ethics_fields c ethical_tags ethical_guideline_ids
    let s := setK s "id" (.uid kb.nextId)
    let kb1 := { kb with contracts := kb.contracts ++ [s], nextId := kb.nextId + 1 }
    match create_document kb1 (updateD s [("type", .str "contract")]) none none with
    | (kb2, .ok _) => (kb2, .ok s)
    | (kb2, .error e) => (kb2, .error e)

/-- `create_internal_doc`: validates, appends to `internal_docs`, then calls
`create_document({**doc, 'type': 'internal_doc'})`. -/
def create_internal_doc (kb : KB) (d : Dict)
    (ethical_tags ethical_guideline_ids : Option Val) : KB × Except String Dict :=
  match validate_internal_doc d with
  | .error e => (kb, .error e)
  | .ok _ =>
    let s := add_ethics_fields d ethical_tags ethical_guideline_ids
    let s := setK s "id" (.uid kb.nextId)
    let kb1 := { kb with internal_docs := kb.internal_docs ++ [s], nextId := kb.nextId + 1 }
    match create_document kb1 (updateD s [("type", .str "internal_doc")]) none none with
    | (kb2, .ok _) => (kb2, .ok s)
    | (kb2, .error e) => (kb2, .error e)

/-- `validate_legal_research`. -/
def validate_legal_research (r : Dict) : Except String Unit :=
  if !hasKey r "topic" || !hasKey r "content" then
    .error "Legal research must have \x27topic\x27 and \x27content\x27 fields."
  else .ok ()

/-- `create_legal_research`. -/
def create_legal_research (kb : KB) (r : Dict)
    (ethical_tags ethical_guideline_ids : Option Val) : KB × Except String Dict :=
  match validate_legal_research r with
  | .error e => (kb, .error e)
  | .ok _ =>
    let s := add_ethics_fields r ethical_tags ethical_guideline_ids
    let s := setK s "id" (.uid kb.nextId)
    ({ kb with legal_research := kb.legal_research ++ [s], nextId := kb.nextId + 1 }, .ok s)

/-- `validate_calendar_event`. -/
def validate_calendar_event (e : Dict) : Except String Unit :=
  if !hasKey e "title" || !hasKey e "datetime" || !hasKey e "participants" then
    .error "Calendar event must have \x27title\x27, \x27datetime\x27, and \x27participants\x27 fields."
  else .ok ()

/-- `create_calendar_event` (no ethics arguments; the dict is copied). -/
def create_calendar_event (kb : KB) (e : Dict) : KB × Except String Dict :=
  match validate_calendar_event e with
  | .error msg => (kb, .error msg)
  | .ok _ =>
    let s := setK e "id" (.uid kb.nextId)
    ({ kb with calendar_events := kb.calendar_events ++ [s], nextId := kb.nextId + 1 }, .ok s)

/-- `validate_feedback`. -/
def validate_feedback (f : Dict) : Except String Unit :=
  if !hasKey f "data_type" || !hasKey f "data" || !hasKey f "label" then
    .error "Feedback must have \x27data_type\x27, \x27data\x27, and \x27label\x27 fields."
  else .ok ()

/-- `create_feedback`. -/
def create_feedback (kb : KB) (f : Dict) : KB × Except String Dict :=
  match validate_feedback f with
  | .error msg => (kb, .error msg)
  | .ok _ =>
    let s := setK f "id" (.uid kb.nextId)
    ({ kb with feedback := kb.feedback ++ [s], nextId := kb.nextId + 1 }, .ok s)

/-- `validate_ethics_record`. -/
def validate_ethics_record (r : Dict) : Except String Unit :=
  if !hasKey r "issue" || !hasKey r "date" || !hasKey r "resolution" then
    .error "Ethics record must have \x27issue\x27, \x27date\x27, and \x27resolution\x27 fields."
  else .ok ()

/-- `create_ethics_record`. -/
def create_ethics_record (kb : KB) (r : Dict) : KB × Except String Dict :=
  match validate_ethics_record r with
  | .error msg => (kb, .error msg)
  | .ok _ =>
    let s := setK r "id" (.uid kb.nextId)
    ({ kb with ethics_records := kb.ethics_records ++ [s], nextId := kb.nextId + 1 }, .ok s)

/-- `validate_financial_record`. -/
def validate_financial_record (r : Dict) : Except String Unit :=
  if !hasKey r "amount" || !hasKey r "date" || !hasKey r "description" then
    .error "Financial record must have \x27amount\x27, \x27date\x27, and \x27description\x27 fields."
  else .ok ()

/-- `create_financial_record`. -/
def create_financial_record (kb : KB) (r : Dict) : KB × Except String Dict :=
  match validate_financial_record r with
  | .error msg => (kb, .error msg)
  | .ok _ =>
    let s := setK r "id" (.uid kb.nextId)
    ({ kb with financial_records := kb.financial_records ++ [s], nextId := kb.nextId + 1 }, .ok s)

/-- `validate_communication_log`. -/
def validate_communication_log (l : Dict) : Except String Unit :=
  if !hasKey l "participants" || !hasKey l "timestamp" || !hasKey l "content" then
    .error "Communication log must have \x27participants\x27, \x27timestamp\x27, and \x27content\x27 fields."
  else .ok ()

/-- `create_communication_log`. -/
def create_communication_log (kb : KB) (l : Dict) : KB × Except String Dict :=
  match validate_communication_log l with
  | .error msg => (kb, .error msg)
  | .ok _ =>
    let s := setK l "id" (.uid kb.nextId)
    ({ kb with communication_logs := kb.communication_logs ++ [s], nextId := kb.nextId + 1 }, .ok s)

/-- `validate_template`. -/
def validate_template (t : Dict) : Except String Unit :=
  if !hasKey t "name" || !hasKey t "content" then
    .error "Template must have \x27name\x27 and \x27content\x27 fields."
  else .ok ()

/-- `create_template`. -/
def create_template (kb : KB) (t : Dict)
    (ethical_tags ethical_guideline_ids : Option Val) : KB × Except String Dict :=
  match validate_template t with
  | .error e => (kb, .error e)
  | .ok _ =>
    let s := add_ethics_fields t ethical_tags ethical_guideline_ids
    let s := setK s "id" (.uid kb.nextId)
    ({ kb with templates := kb.templates ++ [s], nextId := kb.nextId + 1 }, .ok s)

/-- `validate_external_data`. -/
def validate_external_data (d : Dict) : Except String Unit :=
  if !hasKey d "source" || !hasKey d "content" then
    .error "External data must have \x27source\x27 and \x27content\x27 fields."
  else .ok ()

/-- `create_external_data`. -/
def create_external_data (kb : KB) (d : Dict)
    (ethical_tags ethical_guideline_ids : Option Val) : KB × Except String Dict :=
  match validate_external_data d with
  | .error e => (kb, .error e)
  | .ok _ =>
    let s := add_ethics_fields d ethical_tags ethical_guideline_ids
    let s := setK s "id" (.uid kb.nextId)
    ({ kb with external_data := kb.external_data ++ [s], nextId := kb.nextId + 1 }, .ok s)

-- Update operations --

/-- Whether a stored record matches the target id (`r.get('id') == target`,
compared with Python `==`; the stored records carry their ids). -/
def idMatches (c : Dict) (tid : Val) : Bool :=
  (getK c "id").any (fun v => valBeq v tid)

/-- The mutate-first walk of `update_client`: on the first id match the code
does `client.update(updates)` and only then `self.validate_client(client)`,
so when validation raises the already-mutated record stays in the list. -/
def updClientList (tid : Val) (updates : Dict) :
    List Dict → List Dict × Except String Bool
  | [] => ([], .ok false)
  | c :: rest =>
    if idMatches c tid then
      let c2 := updateD c updates
      match validate_client c2 with
      | .ok _ => (c2 :: rest, .ok true)
      | .error e => (c2 :: rest, .error e)
    else
      let pr := updClientList tid updates rest
      (c :: pr.1, pr.2)

/-- `update_client`. -/
def update_client (kb : KB) (tid : Val) (updates : Dict) : KB × Except String Bool :=
  match updClientList tid updates kb.clients with
  | (l, r) => ({ kb with clients := l }, r)

/-- `validate_llm`. (`llm['type'] == 'local'` is modelled on the key being
present, which the preceding check guarantees.) -/
def validate_llm (llm : Dict) : Except String Unit :=
  if !hasKey llm "name" || !hasKey llm "type" then
    .error "LLM config must have \x27name\x27 and \x27type\x27."
  else if (getK llm "type").any (fun v => valBeq v (.str "local")) then
    if !hasKey llm "model_path" then
      .error "Local LLM config must have \x27model_path\x27."
    else .ok ()
  else if (getK llm "type").any (fun v => valBeq v (.str "api")) then
    if !hasKey llm "api_url" || !hasKey llm "api_key" then
      .error "API LLM config must have \x27api_url\x27 and \x27api_key\x27."
    else .ok ()
  else
    .error "LLM type must be \x27local\x27 or \x27api\x27."

/-- The `path_or_url` compatibility aliasing performed on the validation copy
in `create_llm` and on the prospective merge in `update_llm`: copy
`path_or_url` into `model_path` (for type `'local'`) or `api_url` (for type
`'api'`) when the target key is absent. -/
def aliasPathFields (d : Dict) : Dict :=
  let d1 :=
    if hasKey d "path_or_url" && !hasKey d "model_path" &&
        (getK d "type").any (fun v => valBeq v (.str "local")) then
      setK d "model_path" ((getK d "path_or_url").getD .null)
    else d
  if hasKey d1 "path_or_url" && !hasKey d1 "api_url" &&
      (getK d1 "type").any (fun v => valBeq v (.str "api")) then
    setK d1 "api_url" ((getK d1 "path_or_url").getD .null)
  else d1

/-- `create_llm`: validates an aliased copy, then appends the original fields
plus a fresh `id`; `is_default` is set to `False` only when the caller's dict
does not already carry an `is_default` key. -/
def create_llm (kb : KB) (llm : Dict) : KB × Except String Dict :=
  match validate_llm (aliasPathFields llm) with
  | .error e => (kb, .error e)
  | .ok _ =>
    let a := setK llm "id" (.uid kb.nextId)
    let a := if hasKey a "is_default" then a else setK a "is_default" (.bool false)
    ({ kb with llms := kb.llms ++ [a], nextId := kb.nextId + 1 }, .ok a)

/-- The walk of `update_llm`: validate the aliased prospective merge, then
apply the raw updates in place (validate-first, like most updates). -/
def updLlmList (tid : Val) (updates : Dict) :
    List Dict → List Dict × Except String Bool
  | [] => ([], .ok false)
  | c :: rest =>
    if idMatches c tid then
      match validate_llm (aliasPathFields (updateD c updates)) with
      | .ok _ => (updateD c updates :: rest, .ok true)
      | .error e => (c :: rest, .error e)
    else
      let pr := updLlmList tid updates rest
      (c :: pr.1, pr.2)

/-- `update_llm`. -/
def update_llm (kb : KB) (tid : Val) (updates : Dict) : KB × Except String Bool :=
  match updLlmList tid updates kb.llms with
  | (l, r) => ({ kb with llms := l }, r)

/-- The walk of `delete_llm`: remove the first id match. -/
def deleteFirst (tid : Val) : List Dict → List Dict × Bool
  | [] => ([], false)
  | c :: rest =>
    if idMatches c tid then (rest, true)
    else
      let pr := deleteFirst tid rest
      (c :: pr.1, pr.2)

/-- `delete_llm`. -/
def delete_llm (kb : KB) (tid : Val) : KB × Bool :=
  match deleteFirst tid kb.llms with
  | (l, b) => ({ kb with llms := l }, b)

/-- `set_default_llm`: one pass over all configurations, setting
`is_default = True` on every id match and `False` on every other entry;
returns whether a match was found. -/
def set_default_llm (kb : KB) (tid : Val) : KB × Bool :=
  let llms2 := kb.llms.map (fun c =>
    if idMatches c tid then setK c "is_default" (.bool true)
    else setK c "is_default" (.bool false))
  ({ kb with llms := llms2 }, kb.llms.any (fun c => idMatches c tid))

/-- `get_default_llm`: the first configuration whose `is_default` is truthy,
else `None`. -/
def get_default_llm (kb : KB) : Option Dict :=
  kb.llms.find? (fun c => getTruthy c "is_default")

-- Persistence (save_to_file / load_from_file) --

/-- The JSON object written by `save_to_file`, one field per top-level key.
There is no `users` key: `save_to_file` does not persist `self.users`.
In the model the file round-trips losslessly (json.dump/json.load of
JSON-representable data), so loading is applied to this structure. -/
structure Snap where
  primary_sources : Option (List String) := none
  secondary_sources : Option (List String) := none
  tertiary_sources : Option (List String) := none
  documents : Option (List Dict) := none
  statutes : Option (List Dict) := none
  cases : Option (List Dict) := none
  clients : Option (List Dict) := none
  case_files : Option (List Dict) := none
  legal_research : Option (List Dict) := none
  contracts : Option (List Dict) := none
  internal_docs : Option (List Dict) := none
  calendar_events : Option (List Dict) := none
  notes : Option (List Dict) := none
  feedback : Option (List Dict) := none
  ethics_records : Option (List Dict) := none
  financial_records : Option (List Dict) := none
  communication_logs : Option (List Dict) := none
  templates : Option (List Dict) := none
  external_data : Option (List Dict) := none
  llms : Option (List Dict) := none
  profiles : Option (List Dict) := none
  active_profile_id : Option Val := none

/-- The possible outcomes of opening and parsing the file in
`load_from_file`: missing file (`FileNotFoundError`), unparsable JSON
(`json.JSONDecodeError`), a parsed top level that is not an object (the
first `.get` raises `AttributeError`, caught by the blanket `except
Exception` before any attribute was assigned), or a parsed object. -/
inductive LoadInput where
  | fileNotFound
  | badJson
  | nonDict
  | parsed (s : Snap)

/-- `load_from_file`: on success assigns every collection from the parsed
object with `.get(key, [])` defaults (never touching `self.users`); on
`FileNotFoundError` re-initializes the KB via `self.__init__()`; on a JSON
decode error or a non-object top level the handler only prints, so the prior
state is untouched. -/
def load_from_file (kb : KB) (input : LoadInput) : KB :=
  match input with
  | .fileNotFound => reinitKB kb
  | .badJson => kb
  | .nonDict => kb
  | .parsed s =>
    { kb with
      primary_sources := s.primary_sources.getD []
      secondary_sources := s.secondary_sources.getD []
      tertiary_sources := s.tertiary_sources.getD []
      documents := s.documents.getD []
      statutes := s.statutes.getD []
      cases := s.cases.getD []
      clients := s.clients.getD []
      case_files := s.case_files.getD []
      legal_research := s.legal_research.getD []
      contracts := s.contracts.getD []
      internal_docs := s.internal_docs.getD []
      calendar_events := s.calendar_events.getD []
      notes := s.notes.getD []
      feedback := s.feedback.getD []
      ethics_records := s.ethics_records.getD []
      financial_records := s.financial_records.getD []
      communication_logs := s.communication_logs.getD []
      templates := s.templates.getD []
      external_data := s.external_data.getD []
      llms := s.llms.getD []
      profiles := s.profiles.getD []
      active_profile_id := s.active_profile_id }

-- ===================================================================
-- Ethical filter (ethical_filter.py)
-- ===================================================================

/-- Python `repr` of a `Val` (strings in the repository's payloads carry no
embedded quotes or escapes, so `repr` is quoting). `uid n` renders as the
modelled uuid string. -/
def pyRepr : Val → String
  | .str s => "\x27" ++ s ++ "\x27"
  | .bool b => if b then "True" else "False"
  | .int n => toString n
  | .uid n => "\x27uuid-" ++ toString n ++ "\x27"
  | .null => "None"
  | .list vs => "[" ++ pyReprList vs ++ "]"
  | .dict d => "\x7b" ++ pyReprDict d ++ "\x7d"
where
  pyReprList : List Val → String
    | [] => ""
    | [v] => pyRepr v
    | v :: rest => pyRepr v ++ ", " ++ pyReprList rest
  pyReprDict : List (String × Val) → String
    | [] => ""
    | [(k, v)] => "\x27" ++ k ++ "\x27: " ++ pyRepr v
    | (k, v) :: rest => "\x27" ++ k ++ "\x27: " ++ pyRepr v ++ ", " ++ pyReprDict rest

/-- Python `str` of a `Val`: like `repr` except that a top-level string is
returned unquoted. -/
def pyStrTop : Val → String
  | .str s => s
  | .uid n => "uuid-" ++ toString n
  | v => pyRepr v

/-- Word characters, the `\w` class of the `\b` regex boundary (ASCII). -/
def wordChar (c : Char) : Bool := c.isAlphanum || c == '_'

/-- Case-insensitive character comparison (`re.IGNORECASE`). -/
def charCI (a b : Char) : Bool := a.toLower == b.toLower

/-- Case-insensitive prefix test. -/
def prefixCI : List Char → List Char → Bool
  | [], _ => true
  | _ :: _, [] => false
  | a :: as, b :: bs => charCI a b && prefixCI as bs

/-- The character right after a match of `pat` at the head of `text` must not
be a word character (`\b` on the right edge of the pattern). -/
def afterOk (pat text : List Char) : Bool :=
  match text.drop pat.length with
  | [] => true
  | c :: _ => !wordChar c

/-- `re.search(r'\b<pat>\b', text, re.IGNORECASE)` for a literal word `pat`
(all the configured patterns begin and end with word characters): scan every
position, requiring a non-word character (or the text edge) on both sides. -/
def searchWord (pat : List Char) (prev : Option Char) (text : List Char) : Bool :=
  let here := prefixCI pat text &&
    (match prev with | none => true | some c => !wordChar c) &&
    afterOk pat text
  match text with
  | [] => here
  | c :: rest => here || searchWord pat (some c) rest

/-- Whole-word case-insensitive search of `pat` inside `text`. -/
def findWordCI (pat text : String) : Bool := searchWord pat.data none text.data

/-- The literal words of `check_confidentiality`'s pattern list
`[r'\bSSN\b', r'\bSocial Security\b', r'\bDOB\b', r'\bDate of Birth\b',
r'\bmedical\b', r'\bdiagnosis\b']`. -/
def confPatterns : List String :=
  ["SSN", "Social Security", "DOB", "Date of Birth", "medical", "diagnosis"]

/-- `check_confidentiality`: regex-scans `str(data)` against the pattern list
in order; the first hit yields a `warn`. -/
def check_confidentiality (data : Dict) : String × String :=
  match confPatterns.find? (fun w => findWordCI w (pyRepr (.dict data))) with
  | some w =>
    ("warn", "Potential confidential info detected: \x27\\b" ++ w ++ "\\b\x27. See ABA Model Rule 1.6")
  | none => ("pass", "")

/-- `d.get(k, [])` read as a list (the two call sites pass list-valued
context/user entries; a non-list value would raise at the later `in`). -/
def getListD (d : Dict) (k : String) : List Val :=
  match getK d k with
  | some (.list vs) => vs
  | _ => []

/-- `check_conflict_of_interest`: blocks when the payload's truthy `client`
value appears among `context['adverse_parties']`. -/
def check_conflict_of_interest (data : Dict) (context : Dict) : String × String :=
  let client := getK data "client"
  let adverse_parties := getListD context "adverse_parties"
  match client with
  | some cl =>
    if truthy cl && adverse_parties.any (fun v => valBeq v cl) then
      ("block", "Conflict of interest: client \x27" ++ pyStrTop cl ++
        "\x27 is an adverse party. See ABA Model Rule 1.7")
    else ("pass", "")
  | none => ("pass", "")

/-- `check_unauthorized_practice`: blocks when `context['jurisdiction']` is
truthy and absent from the actor's `jurisdictions` list. -/
def check_unauthorized_practice (user : Option Dict) (context : Dict) : String × String :=
  let jurisdiction := getK context "jurisdiction"
  let authorized := match user with
    | some u => getListD u "jurisdictions"
    | none => []
  match jurisdiction with
  | some j =>
    if truthy j && !(authorized.any (fun v => valBeq v j)) then
      ("block", "Unauthorized practice in " ++ pyStrTop j ++ ". See ABA Model Rule 5.5")
    else ("pass", "")
  | none => ("pass", "")

/-- A verdict dict `{'result': …, 'explanation': …, 'rule': …}`. -/
structure Verdict where
  result : String
  explanation : String
  rule : String
deriving DecidableEq, Repr

/-- The all-pass verdict `{'result': 'pass', 'explanation': '', 'rule': ''}`. -/
def passVerdict : Verdict := ⟨"pass", "", ""⟩

/-- The `checks` list assembled by `check_ethics`: confidentiality for all
data, conflict-of-interest for client-related actions, unauthorized-practice
for legal actions — in that registration order, keeping only non-passing
results. -/
def checksOf (data : Dict) (action_type : String) (user : Option Dict)
    (context : Option Dict) : List Verdict :=
  let ctx := context.getD []
  let c1 := match check_confidentiality data with
    | (r, e) => if r ≠ "pass" then [⟨r, e, "ABA Model Rule 1.6"⟩] else []
  let c2 :=
    if action_type ∈ ["create_client", "update_client", "create_case", "update_case"] then
      match check_conflict_of_interest data ctx with
      | (r, e) => if r ≠ "pass" then [⟨r, e, "ABA Model Rule 1.7"⟩] else []
    else []
  let c3 :=
    if action_type ∈ ["create_case", "update_case", "legal_action"] then
      match check_unauthorized_practice user ctx with
      | (r, e) => if r ≠ "pass" then [⟨r, e, "ABA Model Rule 5.5"⟩] else []
    else []
  c1 ++ c2 ++ c3

/-- `check_ethics`: runs the applicable checks and returns the first `block`
if any, else the first `warn`, else the all-pass verdict. -/
def check_ethics (data : Dict) (action_type : String) (user : Option Dict)
    (context : Option Dict) : Verdict :=
  let checks := checksOf data action_type user context
  match checks.find? (fun c => c.result == "block") with
  | some c => c
  | none =>
    match checks.find? (fun c => c.result == "warn") with
    | some c => c
    | none => passVerdict

-- ===================================================================
-- Provider router (llm_manager.py, run_llm_query)
-- ===================================================================

/-- Lower-casing a string (`str.lower()`). -/
def lowerStr (s : String) : String := String.mk (s.data.map Char.toLower)

/-- Substring containment, Python's `needle in haystack` on strings. -/
def hasSubAux (needle : List Char) : List Char → Bool
  | [] => needle.isEmpty
  | hay@(_ :: rest) => needle.isPrefixOf hay || hasSubAux needle rest

/-- `needle in haystack` for strings. -/
def subStr (needle hay : String) : Bool := hasSubAux needle.data hay.data

/-- An LLM configuration dict as consumed by `run_llm_query`; per the data
model its connection fields are strings (a missing key reads as `None`). -/
structure LLMConf where
  ty : Option String := none
  name : Option String := none
  provider : Option String := none
  api_url : Option String := none
  api_key : Option String := none
  model : Option String := none
  path_or_url : Option String := none

/-- A successful `openai.ChatCompletion.create` result: the primary message
content plus usage counters. -/
structure Completion where
  content : String
  prompt_tokens : Nat
  completion_tokens : Nat

/-- A `requests.post` response: status code, raw text, and the outcome of
`resp.json()` (which may itself raise). -/
structure HttpResp where
  status_code : Nat
  text : String
  jsonBody : Except String Val

/-- The outcome of the local `transformers` path: the import may fail, the
pipeline construction/generation may raise, or generation returns a value. -/
inductive LocalOutcome where
  | importErr
  | raiseErr (msg : String)
  | genOk (result : Val)

/-- The external world as seen by one `run_llm_query` call: the outcome each
backend would produce if invoked. Exceptions raised by a backend are the
`error` cases. -/
structure LLMEnv where
  openaiResult : Except String Completion := .error ""
  anthropicResult : Except String HttpResp := .error ""
  hfResult : Except String HttpResp := .error ""
  localResult : LocalOutcome := .importErr

/-- `provider = llm.get('provider', '').lower() if llm.get('provider') else ''`. -/
def providerOf (llm : LLMConf) : String :=
  match llm.provider with
  | some p => if p ≠ "" then lowerStr p else ""
  | none => ""

/-- `api_url = llm.get('api_url', '')`. -/
def apiUrlOf (llm : LLMConf) : String := llm.api_url.getD ""

/-- Dispatch test of the OpenAI branch:
`llm_type == 'api' and ('openai' in provider or 'openai' in api_url.lower())`. -/
def openaiCond (llm : LLMConf) : Bool :=
  llm.ty == some "api" &&
    (subStr "openai" (providerOf llm) || subStr "openai" (lowerStr (apiUrlOf llm)))

/-- Dispatch test of the Anthropic branch. -/
def anthropicCond (llm : LLMConf) : Bool :=
  llm.ty == some "api" &&
    (subStr "anthropic" (providerOf llm) || subStr "anthropic" (lowerStr (apiUrlOf llm)))

/-- Dispatch test of the HuggingFace branch. -/
def hfCond (llm : LLMConf) : Bool :=
  llm.ty == some "api" &&
    (subStr "huggingface" (providerOf llm) || subStr "huggingface" (lowerStr (apiUrlOf llm)))

/-- Dispatch test of the local branch (`llm_type == 'local'`). -/
def localCond (llm : LLMConf) : Bool := llm.ty == some "local"

/-- The neutral explainability note used on every failure path. -/
def noInfo : String := "No explainability info available."

/-- `if not api_key:` / `if not model_path:` — absent or empty. -/
def keyMissing : Option String → Bool
  | some s => s == ""
  | none => true

/-- `f"{llm.get('name')}"` — `None` renders as `"None"`. -/
def nameOf (llm : LLMConf) : String :=
  match llm.name with
  | some s => s
  | none => "None"

/-- `f"{llm_type}"`. -/
def tyStr (llm : LLMConf) : String :=
  match llm.ty with
  | some s => s
  | none => "None"

/-- Python `key in value` (dict key / list membership / substring; other
receivers raise `TypeError`). -/
def pyIn (key : String) (v : Val) : Except String Bool :=
  match v with
  | .dict d => .ok (hasKey d key)
  | .list vs => .ok (vs.any (fun x => valBeq x (.str key)))
  | .str s => .ok (subStr key s)
  | _ => .error "TypeError: argument is not iterable"

/-- Python `value[key]` for a string key. -/
def getItemS (v : Val) (key : String) : Except String Val :=
  match v with
  | .dict d =>
    match getK d key with
    | some x => .ok x
    | none => .error ("KeyError: " ++ key)
  | _ => .error "TypeError: object is not subscriptable"

/-- Python `value[i]` for an integer index. -/
def getItemI (v : Val) (i : Nat) : Except String Val :=
  match v with
  | .list vs =>
    match vs.get? i with
    | some x => .ok x
    | none => .error "IndexError: list index out of range"
  | _ => .error "TypeError: object is not subscriptable"

/-- The Anthropic 200-response body handling: content is
`result['content'][0]['text'] if 'content' in result and result['content']
else str(result)`, and the note reads
`result.get('usage', {}).get('input_tokens', '?')`; any raise inside is the
`error` case (caught by the branch's handler). -/
def anthropicExtract (result : Val) (model : String) : Except String (String × String) := do
  let cond ← (do
    let b ← pyIn "content" result
    if b then do
      let cv ← getItemS result "content"
      pure (truthy cv)
    else pure false)
  let content ←
    if cond then do
      let cv ← getItemS result "content"
      let c0 ← getItemI cv 0
      let t ← getItemS c0 "text"
      pure (pyStrTop t)
    else pure (pyStrTop result)
  let usage ← match result with
    | .dict d => pure ((getK d "usage").getD (.dict []))
    | _ => .error "AttributeError: object has no attribute get"
  let tok ← match usage with
    | .dict u => pure (match getK u "input_tokens" with
        | some v => pyStrTop v
        | none => "?")
    | _ => .error "AttributeError: object has no attribute get"
  pure (content, "Anthropic model: " ++ model ++ ", tokens used: " ++ tok)

/-- The HuggingFace 200-response body handling. -/
def hfExtract (result : Val) : Except String String := do
  let isList := match result with | .list _ => true | _ => false
  let cond1 ←
    if isList then do
      let r0 ← getItemI result 0
      pyIn "generated_text" r0
    else pure false
  if cond1 then do
    let r0 ← getItemI result 0
    let g ← getItemS r0 "generated_text"
    pure (pyStrTop g)
  else
    let isDict := match result with | .dict _ => true | _ => false
    let cond2 ← if isDict then pyIn "generated_text" result else pure false
    if cond2 then do
      let g ← getItemS result "generated_text"
      pure (pyStrTop g)
    else pure (pyStrTop result)

/-- The local pipeline result handling:
`result[0]['generated_text'] if result and 'generated_text' in result[0]
else str(result)`. -/
def localExtract (result : Val) : Except String String := do
  let cond ←
    if truthy result then do
      let r0 ← getItemI result 0
      pyIn "generated_text" r0
    else pure false
  if cond then do
    let r0 ← getItemI result 0
    let g ← getItemS r0 "generated_text"
    pure (pyStrTop g)
  else pure (pyStrTop result)

/-- `run_llm_query(llm, prompt)`: dispatches on type/provider and always
returns a `(response, explainability)` pair — every adapter body is wrapped
in a handler converting a raise into an error-marked text, so no exception
crosses this function (structurally: its result type carries no error). -/
def run_llm_query (llm : LLMConf) (prompt : String) (env : LLMEnv) : String × String :=
  if openaiCond llm then
    if keyMissing llm.api_key then
      ("[Error: No API key configured for this LLM]", noInfo)
    else
      let model := llm.model.getD "gpt-3.5-turbo"
      match env.openaiResult with
      | .error e => ("[OpenAI API error: " ++ e ++ "]", noInfo)
      | .ok c =>
        (c.content, "OpenAI model: " ++ model ++ ", prompt tokens: " ++
          toString c.prompt_tokens ++ ", completion tokens: " ++ toString c.completion_tokens)
  else if anthropicCond llm then
    if keyMissing llm.api_key then
      ("[Error: No API key configured for Anthropic]", noInfo)
    else
      let model := llm.model.getD "claude-3-opus-20240229"
      match env.anthropicResult with
      | .error e => ("[Anthropic API error: " ++ e ++ "]", noInfo)
      | .ok resp =>
        if resp.status_code == 200 then
          match (do anthropicExtract (← resp.jsonBody) model) with
          | .ok pr => pr
          | .error e => ("[Anthropic API error: " ++ e ++ "]", noInfo)
        else
          ("[Anthropic API error: " ++ toString resp.status_code ++ " " ++ resp.text ++ "]", noInfo)
  else if hfCond llm then
    if keyMissing llm.api_key then
      ("[Error: No API key configured for HuggingFace]", noInfo)
    else
      let model := llm.model.getD "HuggingFaceH4/zephyr-7b-beta"
      match env.hfResult with
      | .error e => ("[HuggingFace API error: " ++ e ++ "]", noInfo)
      | .ok resp =>
        if resp.status_code == 200 then
          match (do hfExtract (← resp.jsonBody)) with
          | .ok content => (content, "HuggingFace model: " ++ model)
          | .error e => ("[HuggingFace API error: " ++ e ++ "]", noInfo)
        else
          ("[HuggingFace API error: " ++ toString resp.status_code ++ " " ++ resp.text ++ "]", noInfo)
  else if localCond llm then
    match env.localResult with
    | .importErr =>
      ("[transformers not installed: cannot run local LLM \x27" ++ nameOf llm ++
         "\x27]\nPrompt: " ++ prompt ++ "\nResponse: This is a mock local LLM response.",
       "This output was generated by a mock local LLM. No real legal analysis was performed.")
    | .raiseErr e =>
      if keyMissing llm.path_or_url then
        ("[Error: No local model path configured]", noInfo)
      else
        ("[Local LLM error: " ++ e ++ "]", noInfo)
    | .genOk result =>
      if keyMissing llm.path_or_url then
        ("[Error: No local model path configured]", noInfo)
      else
        let mp := llm.path_or_url.getD ""
        match localExtract result with
        | .ok content => (content, "Local model: " ++ mp ++ " (transformers pipeline)")
        | .error e => ("[Local LLM error: " ++ e ++ "]", noInfo)
  else
    ("[Unknown LLM type/provider: " ++ tyStr llm ++ " / " ++ providerOf llm ++ "]", noInfo)

-- ===================================================================
-- Theorems
-- ===================================================================

/-- **C1.** The claim says every update validates the merged record before
mutating, so `update_client(id, {'name': ''})` raises and leaves the stored
client unchanged. The code of `update_client` does `client.update(updates)`
*before* `self.validate_client(client)` (unlike its twelve validate-first
siblings), so the failing call leaves the stored client with the empty name:
evaluating the model at the claim's own failing input shows the raise
together with the mutated store. -/
theorem update_client_mutates_before_validating :
    update_client
      { initKB with
        clients := [[("name", .str "Test"), ("contact", .str "t"), ("id", .uid 0)]],
        nextId := 1 }
      (.uid 0) [("name", .str "")] =
    ({ initKB with
        clients := [[("name", .str ""), ("contact", .str "t"), ("id", .uid 0)]],
        nextId := 1 },
      .error "Client must have a non-empty name.") := by
  rfl

/-- **C5 (counterexample).** A failing restore does not always leave prior
state intact: on `FileNotFoundError`, `load_from_file` calls
`self.__init__()`, wiping the prior clients collection. -/
theorem load_file_not_found_resets_state :
    (load_from_file
        { initKB with
          clients := [[("name", .str "Alice"), ("contact", .str "a@x.com"), ("id", .uid 0)]],
          nextId := 1 }
        .fileNotFound).clients ≠
      ({ initKB with
          clients := [[("name", .str "Alice"), ("contact", .str "a@x.com"), ("id", .uid 0)]],
          nextId := 1 } : KB).clients := by
  simp [load_from_file, reinitKB, initKB]

/-- **C5 (amended).** A restore that fails on unparsable JSON or on a
non-object top level leaves every prior in-memory collection exactly as it
was; a restore that fails because the file does not exist instead
re-initializes the store (the 20 `__init__` collections are reset to empty;
only the lazily created `users`/`profiles`/`active_profile_id` attributes
survive, since `__init__` does not set them). -/
theorem load_from_file_failure_behaviour (kb : KB) :
    load_from_file kb .badJson = kb ∧
    load_from_file kb .nonDict = kb ∧
    load_from_file kb .fileNotFound = reinitKB kb ∧
    (load_from_file kb .fileNotFound).clients = [] ∧
    (load_from_file kb .fileNotFound).documents = [] := by
  exact ⟨rfl, rfl, rfl, rfl, rfl⟩

/-- **C5 (witness for the amended theorem).** -/
theorem load_from_file_failure_behaviour_witness :
    load_from_file initKB .badJson = initKB :=
  (load_from_file_failure_behaviour initKB).1

/-- **C8.** For every record kind with a create operation and every field
dictionary missing any required kind-specific field (for clients: with a
falsy required field), the create raises the kind's `ValueError` — whose
message names the required fields, the missing one included — and leaves the
store, in particular the kind's collection, exactly unchanged. -/
theorem create_rejects_invalid_and_leaves_collection :
    (∀ kb c t g v, getTruthy c "name" = false →
      create_client kb c t g v = (kb, .error "Client must have a non-empty name.")) ∧
    (∀ kb c t g v, getTruthy c "name" = true → getTruthy c "contact" = false →
      create_client kb c t g v = (kb, .error "Client must have a contact.")) ∧
    (∀ kb d t g, hasKey d "title" = false ∨ hasKey d "text" = false →
      create_document kb d t g =
        (kb, .error "Document must have \x27title\x27 and \x27text\x27 fields.")) ∧
    (∀ kb f t g, hasKey f "section" = false ∨ hasKey f "title" = false ∨
        hasKey f "text" = false →
      create_statute kb f t g =
        (kb, .error "Statute must have \x27section\x27, \x27title\x27, and \x27text\x27 fields.")) ∧
    (∀ kb f t g, hasKey f "case_number" = false ∨ hasKey f "title" = false ∨
        hasKey f "text" = false →
      create_case kb f t g =
        (kb, .error "Case must have \x27case_number\x27, \x27title\x27, and \x27text\x27 fields.")) ∧
    (∀ kb f t g, hasKey f "title" = false ∨ hasKey f "client_id" = false →
      create_case_file kb f t g =
        (kb, .error "Case file must have \x27title\x27 and \x27client_id\x27 fields.")) ∧
    (∀ kb f t g, hasKey f "author" = false ∨ hasKey f "body" = false →
      create_note kb f t g =
        (kb, .error "Note must have \x27author\x27 and \x27body\x27 fields.")) ∧
    (∀ kb f t g, hasKey f "parties" = false ∨ hasKey f "effective_date" = false →
      create_contract kb f t g =
        (kb, .error "Contract must have \x27parties\x27 and \x27effective_date\x27 fields.")) ∧
    (∀ kb f t g, hasKey f "title" = false ∨ hasKey f "content" = false →
      create_internal_doc kb f t g =
        (kb, .error "Internal doc must have \x27title\x27 and \x27content\x27 fields.")) ∧
    (∀ kb f t g, hasKey f "topic" = false ∨ hasKey f "content" = false →
      create_legal_research kb f t g =
        (kb, .error "Legal research must have \x27topic\x27 and \x27content\x27 fields.")) ∧
    (∀ kb f, hasKey f "title" = false ∨ hasKey f "datetime" = false ∨
        hasKey f "participants" = false →
      create_calendar_event kb f =
        (kb, .error "Calendar event must have \x27title\x27, \x27datetime\x27, and \x27participants\x27 fields.")) ∧
    (∀ kb f, hasKey f "data_type" = false ∨ hasKey f "data" = false ∨
        hasKey f "label" = false →
      create_feedback kb f =
        (kb, .error "Feedback must have \x27data_type\x27, \x27data\x27, and \x27label\x27 fields.")) ∧
    (∀ kb f, hasKey f "issue" = false ∨ hasKey f "date" = false ∨
        hasKey f "resolution" = false →
      create_ethics_record kb f =
        (kb, .error "Ethics record must have \x27issue\x27, \x27date\x27, and \x27resolution\x27 fields.")) ∧
    (∀ kb f, hasKey f "amount" = false ∨ hasKey f "date" = false ∨
        hasKey f "description" = false →
      create_financial_record kb f =
        (kb, .error "Financial record must have \x27amount\x27, \x27date\x27, and \x27description\x27 fields.")) ∧
    (∀ kb f, hasKey f "participants" = false ∨ hasKey f "timestamp" = false ∨
        hasKey f "content" = false →
      create_communication_log kb f =
        (kb, .error "Communication log must have \x27participants\x27, \x27timestamp\x27, and \x27content\x27 fields.")) ∧
    (∀ kb f t g, hasKey f "name" = false ∨ hasKey f "content" = false →
      create_template kb f t g =
        (kb, .error "Template must have \x27name\x27 and \x27content\x27 fields.")) ∧
    (∀ kb f t g, hasKey f "source" = false ∨ hasKey f "content" = false →
      create_external_data kb f t g =
        (kb, .error "External data must have \x27source\x27 and \x27content\x27 fields.")) := by
  refine ⟨?_, ?_, ?_, ?_, ?_, ?_, ?_, ?_, ?_, ?_, ?_, ?_, ?_, ?_, ?_, ?_, ?_⟩
  · intro kb c t g v h
    simp [create_client, validate_client, h]
  · intro kb c t g v h1 h2
    simp [create_client, validate_client, h1, h2]
  · intro kb d t g h
    rcases h with h | h <;> simp [create_document, validate_document, h]
  · intro kb f t g h
    rcases h with h | h | h <;> simp [create_statute, validate_statute, h]
  · intro kb f t g h
    rcases h with h | h | h <;> simp [create_case, validate_case, h]
  · intro kb f t g h
    rcases h with h | h <;> simp [create_case_file, validate_case_file, h]
  · intro kb f t g h
    rcases h with h | h <;> simp [create_note, validate_note, h]
  · intro kb f t g h
    rcases h with h | h <;> simp [create_contract, validate_contract, h]
  · intro kb f t g h
    rcases h with h | h <;> simp [create_internal_doc, validate_internal_doc, h]
  · intro kb f t g h
    rcases h with h | h <;> simp [create_legal_research, validate_legal_research, h]
  · intro kb f h
    rcases h with h | h | h <;> simp [create_calendar_event, validate_calendar_event, h]
  · intro kb f h
    rcases h with h | h | h <;> simp [create_feedback, validate_feedback, h]
  · intro kb f h
    rcases h with h | h | h <;> simp [create_ethics_record, validate_ethics_record, h]
  · intro kb f h
    rcases h with h | h | h <;> simp [create_financial_record, validate_financial_record, h]
  · intro kb f h
    rcases h with h | h | h <;> simp [create_communication_log, validate_communication_log, h]
  · intro kb f t g h
    rcases h with h | h <;> simp [create_template, validate_template, h]
  · intro kb f t g h
    rcases h with h | h <;> simp [create_external_data, validate_external_data, h]

/-- **C8 (witness).** The spec's concrete scenario — a client create missing
`name` raises and the clients collection is unchanged — plus a document
missing only `text` and a calendar event missing only `participants`. -/
theorem create_rejects_invalid_witness :
    create_client initKB [("contact", .str "a@x.com")] none none none =
      (initKB, .error "Client must have a non-empty name.") ∧
    create_document initKB [("title", .str "t")] none none =
      (initKB, .error "Document must have \x27title\x27 and \x27text\x27 fields.") ∧
    create_calendar_event initKB [("title", .str "Hearing"), ("datetime", .str "2025-06-04T10:00")] =
      (initKB, .error "Calendar event must have \x27title\x27, \x27datetime\x27, and \x27participants\x27 fields.") :=
  ⟨create_rejects_invalid_and_leaves_collection.1 initKB
      [("contact", .str "a@x.com")] none none none (by decide),
    create_rejects_invalid_and_leaves_collection.2.2.1 initKB
      [("title", .str "t")] none none (Or.inr (by decide)),
    create_rejects_invalid_and_leaves_collection.2.2.2.2.2.2.2.2.2.2.1 initKB
      [("title", .str "Hearing"), ("datetime", .str "2025-06-04T10:00")]
      (Or.inr (Or.inr (by decide)))⟩

-- C7: id preservation under updates --

theorem updLlmList_preserves_ids (tid : Val) (updates : Dict)
    (h : ∀ p ∈ updates, p.1 ≠ "id") (l : List Dict) :
    (updLlmList tid updates l).1.map (fun c => getK c "id") =
      l.map (fun c => getK c "id") := by
  induction l with
  | nil => rfl
  | cons c rest ih =>
    unfold updLlmList
    cases hm : idMatches c tid with
    | true =>
      simp only [hm, if_true]
      cases hv : validate_llm (aliasPathFields (updateD c updates)) with
      | ok _ => simp [getK_updateD_not_mem c updates "id" h]
      | error e => rfl
    | false =>
      simp only [hm, Bool.false_eq_true, if_false, List.map_cons]
      rw [ih]

theorem create_document_ok_spec (kb : KB) (doc : Dict) (t g : Option Val)
    (kb' : KB) (rec : Dict) (h : create_document kb doc t g = (kb', .ok rec)) :
    kb'.documents = kb.documents ++ [rec] ∧
    rec = setK (add_ethics_fields doc t g) "id" (.uid kb.nextId) ∧
    kb'.nextId = kb.nextId + 1 ∧
    kb'.statutes = kb.statutes ∧ kb'.cases = kb.cases ∧
    kb'.contracts = kb.contracts ∧ kb'.internal_docs = kb.internal_docs := by
  unfold create_document at h
  cases hv : validate_document doc with
  | error e => rw [hv] at h; simp at h
  | ok _ =>
    rw [hv] at h
    simp only [Prod.mk.injEq] at h
    obtain ⟨h1, h2⟩ := h
    cases h2
    subst h1
    exact ⟨rfl, rfl, rfl, rfl, rfl, rfl, rfl⟩


/-- **C9.** Every successful `create_statute` / `create_case` /
`create_contract` / `create_internal_doc` appends the new record to its own
collection and additionally appends exactly one copy, tagged with the
matching `'type'` field, to the shared documents collection; the copy is
assigned its own fresh id, distinct from the id of the record returned to
the caller. -/
theorem derived_creates_append_typed_document :
    (∀ kb f t g kb' rec, create_statute kb f t g = (kb', .ok rec) →
      kb'.statutes = kb.statutes ++ [rec] ∧
      ∃ doc, kb'.documents = kb.documents ++ [doc] ∧
        kb'.documents.length = kb.documents.length + 1 ∧
        getK doc "type" = some (.str "statute") ∧
        getK rec "id" = some (.uid kb.nextId) ∧
        getK doc "id" = some (.uid (kb.nextId + 1)) ∧
        getK doc "id" ≠ getK rec "id") ∧
    (∀ kb f t g kb' rec, create_case kb f t g = (kb', .ok rec) →
      kb'.cases = kb.cases ++ [rec] ∧
      ∃ doc, kb'.documents = kb.documents ++ [doc] ∧
        kb'.documents.length = kb.documents.length + 1 ∧
        getK doc "type" = some (.str "case") ∧
        getK rec "id" = some (.uid kb.nextId) ∧
        getK doc "id" = some (.uid (kb.nextId + 1)) ∧
        getK doc "id" ≠ getK rec "id") ∧
    (∀ kb f t g kb' rec, create_contract kb f t g = (kb', .ok rec) →
      kb'.contracts = kb.contracts ++ [rec] ∧
      ∃ doc, kb'.documents = kb.documents ++ [doc] ∧
        kb'.documents.length = kb.documents.length + 1 ∧
        getK doc "type" = some (.str "contract") ∧
        getK rec "id" = some (.uid kb.nextId) ∧
        getK doc "id" = some (.uid (kb.nextId + 1)) ∧
        getK doc "id" ≠ getK rec "id") ∧
    (∀ kb f t g kb' rec, create_internal_doc kb f t g = (kb', .ok rec) →
      kb'.internal_docs = kb.internal_docs ++ [rec] ∧
      ∃ doc, kb'.documents = kb.documents ++ [doc] ∧
        kb'.documents.length = kb.documents.length + 1 ∧
        getK doc "type" = some (.str "internal_doc") ∧
        getK rec "id" = some (.uid kb.nextId) ∧
        getK doc "id" = some (.uid (kb.nextId + 1)) ∧
        getK doc "id" ≠ getK rec "id") := by
  refine ⟨?_, ?_, ?_, ?_⟩
  all_goals
    intro kb f t g kb' rec h
  · unfold create_statute at h
    split at h
    · simp at h
    · dsimp only at h
      split at h
      · next kb2 a heq =>
        simp only [Prod.mk.injEq, Except.ok.injEq] at h
        obtain ⟨h1, h2⟩ := h
        subst h1
        subst h2
        obtain ⟨hd1, hd2, hd3, hd4, hd5, hd6, hd7⟩ := create_document_ok_spec _ _ _ _ _ _ heq
        refine ⟨hd4, _, hd1, by rw [hd1]; simp, ?_, ?_, ?_, ?_⟩
        · rw [hd2]
          rw [getK_setK_other _ _ _ _ (by decide)]
          show getK (setK _ "type" (.str "statute")) "type" = some (.str "statute")
          exact getK_setK_self _ _ _
        · exact getK_setK_self _ _ _
        · rw [hd2]
          exact getK_setK_self _ _ _
        · rw [hd2]
          simp only [getK_setK_self]
          show (some (Val.uid (kb.nextId + 1)) : Option Val) ≠ some (.uid kb.nextId)
          intro hx
          rw [Option.some.injEq, Val.uid.injEq] at hx
          omega
      · next kb2 e heq =>
        simp at h
  · unfold create_case at h
    split at h
    · simp at h
    · dsimp only at h
      split at h
      · next kb2 a heq =>
        simp only [Prod.mk.injEq, Except.ok.injEq] at h
        obtain ⟨h1, h2⟩ := h
        subst h1
        subst h2
        obtain ⟨hd1, hd2, hd3, hd4, hd5, hd6, hd7⟩ := create_document_ok_spec _ _ _ _ _ _ heq
        refine ⟨hd5, _, hd1, by rw [hd1]; simp, ?_, ?_, ?_, ?_⟩
        · rw [hd2]
          rw [getK_setK_other _ _ _ _ (by decide)]
          show getK (setK _ "type" (.str "case")) "type" = some (.str "case")
          exact getK_setK_self _ _ _
        · exact getK_setK_self _ _ _
        · rw [hd2]
          exact getK_setK_self _ _ _
        · rw [hd2]
          simp only [getK_setK_self]
          show (some (Val.uid (kb.nextId + 1)) : Option Val) ≠ some (.uid kb.nextId)
          intro hx
          rw [Option.some.injEq, Val.uid.injEq] at hx
          omega
      · next kb2 e heq =>
        simp at h
  · unfold create_contract at h
    split at h
    · simp at h
    · dsimp only at h
      split at h
      · next kb2 a heq =>
        simp only [Prod.mk.injEq, Except.ok.injEq] at h
        obtain ⟨h1, h2⟩ := h
        subst h1
        subst h2
        obtain ⟨hd1, hd2, hd3, hd4, hd5, hd6, hd7⟩ := create_document_ok_spec _ _ _ _ _ _ heq
        refine ⟨hd6, _, hd1, by rw [hd1]; simp, ?_, ?_, ?_, ?_⟩
        · rw [hd2]
          rw [getK_setK_other _ _ _ _ (by decide)]
          show getK (setK _ "type" (.str "contract")) "type" = some (.str "contract")
          exact getK_setK_self _ _ _
        · exact getK_setK_self _ _ _
        · rw [hd2]
          exact getK_setK_self _ _ _
        · rw [hd2]
          simp only [getK_setK_self]
          show (some (Val.uid (kb.nextId + 1)) : Option Val) ≠ some (.uid kb.nextId)
          intro hx
          rw [Option.some.injEq, Val.uid.injEq] at hx
          omega
      · next kb2 e heq =>
        simp at h
  · unfold create_internal_doc at h
    split at h
    · simp at h
    · dsimp only at h
      split at h
      · next kb2 a heq =>
        simp only [Prod.mk.injEq, Except.ok.injEq] at h
        obtain ⟨h1, h2⟩ := h
        subst h1
        subst h2
        obtain ⟨hd1, hd2, hd3, hd4, hd5, hd6, hd7⟩ := create_document_ok_spec _ _ _ _ _ _ heq
        refine ⟨hd7, _, hd1, by rw [hd1]; simp, ?_, ?_, ?_, ?_⟩
        · rw [hd2]
          rw [getK_setK_other _ _ _ _ (by decide)]
          show getK (setK _ "type" (.str "internal_doc")) "type" = some (.str "internal_doc")
          exact getK_setK_self _ _ _
        · exact getK_setK_self _ _ _
        · rw [hd2]
          exact getK_setK_self _ _ _
        · rw [hd2]
          simp only [getK_setK_self]
          show (some (Val.uid (kb.nextId + 1)) : Option Val) ≠ some (.uid kb.nextId)
          intro hx
          rw [Option.some.injEq, Val.uid.injEq] at hx
          omega
      · next kb2 e heq =>
        simp at h

/-- **C9 (witness).** A concrete successful `create_statute` grows both the
statutes collection and the shared documents collection by one. -/
theorem derived_creates_append_typed_document_witness :
    ({ initKB with
        statutes := [[("section", .str "1"), ("title", .str "t"), ("text", .str "x"), ("id", .uid 0)]],
        documents := [[("section", .str "1"), ("title", .str "t"), ("text", .str "x"),
                       ("id", .uid 1), ("type", .str "statute")]],
        nextId := 2 } : KB).statutes =
      initKB.statutes ++ [[("section", .str "1"), ("title", .str "t"), ("text", .str "x"), ("id", .uid 0)]] ∧
    ({ initKB with
        statutes := [[("section", .str "1"), ("title", .str "t"), ("text", .str "x"), ("id", .uid 0)]],
        documents := [[("section", .str "1"), ("title", .str "t"), ("text", .str "x"),
                       ("id", .uid 1), ("type", .str "statute")]],
        nextId := 2 } : KB).documents.length = initKB.documents.length + 1 := by
  have h := derived_creates_append_typed_document.1 initKB
    [("section", .str "1"), ("title", .str "t"), ("text", .str "x")] none none
    ({ initKB with
        statutes := [[("section", .str "1"), ("title", .str "t"), ("text", .str "x"), ("id", .uid 0)]],
        documents := [[("section", .str "1"), ("title", .str "t"), ("text", .str "x"),
                       ("id", .uid 1), ("type", .str "statute")]],
        nextId := 2 })
    [("section", .str "1"), ("title", .str "t"), ("text", .str "x"), ("id", .uid 0)] (by rfl)
  refine ⟨h.1, ?_⟩
  obtain ⟨doc, hd, hlen, _⟩ := h.2
  exact hlen

-- C10: set_default_llm on an id that matches nothing --

theorem getTruthy_of_getK_bool_false (c : Dict) (k : String)
    (h : getK c k = some (.bool false)) : getTruthy c k = false := by
  unfold getTruthy
  rw [h]
  rfl

/-- **C10.** When the target id matches no stored configuration,
`set_default_llm` returns `False` and switches `is_default` off on every
configuration, so `get_default_llm` afterwards returns `None` — even if some
configuration was the default before the call. -/
theorem set_default_llm_unmatched (kb : KB) (tid : Val)
    (h : ∀ c ∈ kb.llms, idMatches c tid = false) :
    (set_default_llm kb tid).2 = false ∧
    (∀ c ∈ (set_default_llm kb tid).1.llms, getK c "is_default" = some (.bool false)) ∧
    get_default_llm (set_default_llm kb tid).1 = none := by
  refine ⟨?_, ?_, ?_⟩
  · simp only [set_default_llm]
    rw [List.any_eq_false]
    intro c hc
    simp [h c hc]
  · intro c hc
    simp only [set_default_llm, List.mem_map] at hc
    obtain ⟨c0, hc0, rfl⟩ := hc
    rw [h c0 hc0]
    simp only [Bool.false_eq_true, if_false]
    exact getK_setK_self _ _ _
  · unfold get_default_llm
    rw [List.find?_eq_none]
    intro c hc
    simp only [set_default_llm, List.mem_map] at hc
    obtain ⟨c0, hc0, rfl⟩ := hc
    rw [h c0 hc0]
    simp only [Bool.false_eq_true, if_false]
    simp [getTruthy_of_getK_bool_false _ _ (getK_setK_self _ _ _)]

/-- **C10 (witness).** A store whose single configuration is the default:
setting an unknown id as default returns `False` and leaves no default. -/
theorem set_default_llm_unmatched_witness :
    (set_default_llm
        { initKB with
          llms := [[("name", .str "A"), ("type", .str "local"), ("model_path", .str "p"),
                    ("id", .uid 0), ("is_default", .bool true)]], nextId := 1 }
        (.uid 99)).2 = false ∧
    get_default_llm
      (set_default_llm
        { initKB with
          llms := [[("name", .str "A"), ("type", .str "local"), ("model_path", .str "p"),
                    ("id", .uid 0), ("is_default", .bool true)]], nextId := 1 }
        (.uid 99)).1 = none := by
  have hall : ∀ c ∈ ({ initKB with
      llms := [[("name", .str "A"), ("type", .str "local"), ("model_path", .str "p"),
                ("id", .uid 0), ("is_default", .bool true)]], nextId := 1 } : KB).llms,
      idMatches c (.uid 99) = false := by
    intro c hc
    rcases List.mem_singleton.mp hc with rfl
    decide
  exact ⟨(set_default_llm_unmatched _ _ hall).1, (set_default_llm_unmatched _ _ hall).2.2⟩

-- C4: the is_default invariant over LLM-configuration operation sequences --

/-- One LLM-configuration operation of the store's public surface. -/
inductive LLMOp where
  | create (fields : Dict)
  | update (tid : Val) (updates : Dict)
  | delete (tid : Val)
  | setDefault (tid : Val)

/-- The state effect of one operation. -/
def execOp (kb : KB) : LLMOp → KB
  | .create f => (create_llm kb f).1
  | .update t u => (update_llm kb t u).1
  | .delete t => (delete_llm kb t).1
  | .setDefault t => (set_default_llm kb t).1

/-- Running a sequence of operations from a state. -/
def execOps (kb : KB) (ops : List LLMOp) : KB := ops.foldl execOp kb

/-- How many stored configurations currently have a truthy `is_default`. -/
def countDefaults (l : List Dict) : Nat := l.countP (fun c => getTruthy c "is_default")

/-- A caller-supplied field dict that does not smuggle in `is_default` or
`id` keys (the claim's amendment: `is_default` reaches the store only
through `set_default_llm`). -/
def cleanFields (f : Dict) : Prop := ∀ p ∈ f, p.1 ≠ "is_default" ∧ p.1 ≠ "id"

/-- An operation whose payload is clean. -/
def cleanOp : LLMOp → Prop
  | .create f => cleanFields f
  | .update _ u => cleanFields u
  | _ => True

/-- The state invariant: every stored configuration carries a uuid token id
below the counter, the ids are pairwise distinct, and at most one
configuration is the default. -/
def llmsOk (kb : KB) : Prop :=
  (∀ c ∈ kb.llms, ∃ m, m < kb.nextId ∧ getK c "id" = some (.uid m)) ∧
  (kb.llms.map (fun c => getK c "id")).Nodup ∧
  countDefaults kb.llms ≤ 1

theorem getK_eq_none_of_keys (d : Dict) (k : String) (h : ∀ p ∈ d, p.1 ≠ k) :
    getK d k = none := by
  unfold getK
  rw [List.find?_eq_none.mpr]
  intro p hp
  simpa using h p hp

theorem hasKey_false_iff (d : Dict) (k : String) :
    hasKey d k = false ↔ getK d k = none := by
  unfold hasKey
  cases h : getK d k <;> simp [h]

theorem getTruthy_setK_bool (c : Dict) (k : String) (b : Bool) :
    getTruthy (setK c k (.bool b)) k = b := by
  unfold getTruthy
  rw [getK_setK_self]
  rfl

theorem getTruthy_updateD_not_mem (c : Dict) (u : Dict) (k : String)
    (h : ∀ p ∈ u, p.1 ≠ k) : getTruthy (updateD c u) k = getTruthy c k := by
  unfold getTruthy
  rw [getK_updateD_not_mem c u k h]

/-- A target id can match two stored configurations only if they share the
same id value (ids are uuid tokens). -/
theorem idMatches_uid (c : Dict) (m : Nat) (B : Val)
    (hc : getK c "id" = some (.uid m)) (h : idMatches c B = true) : B = .uid m := by
  unfold idMatches at h
  rw [hc] at h
  simp only [Option.any_some] at h
  cases B with
  | uid n =>
    simp only [valBeq] at h
    have hmn : m = n := by simpa using h
    rw [hmn]
  | str s => simp [valBeq] at h
  | bool b => simp [valBeq] at h
  | int n => simp [valBeq] at h
  | list vs => simp [valBeq] at h
  | dict d => simp [valBeq] at h
  | null => simp [valBeq] at h

/-- With pairwise distinct uuid ids, at most one stored configuration
matches any given target. -/
theorem countP_idMatches_le_one (l : List Dict) (B : Val)
    (hids : ∀ c ∈ l, ∃ m, getK c "id" = some (.uid m))
    (hnd : (l.map (fun c => getK c "id")).Nodup) :
    l.countP (fun c => idMatches c B) ≤ 1 := by
  induction l with
  | nil => simp
  | cons c rest ih =>
    rw [List.countP_cons]
    have hrest : ∀ x ∈ rest, ∃ m, getK x "id" = some (.uid m) :=
      fun x hx => hids x (List.mem_cons_of_mem _ hx)
    have hndr : (rest.map (fun c => getK c "id")).Nodup := by
      rw [List.map_cons] at hnd
      exact hnd.of_cons
    cases hm : idMatches c B with
    | false =>
      simp only [Bool.false_eq_true, if_false, Nat.add_zero]
      exact ih hrest hndr
    | true =>
      simp only [if_true]
      obtain ⟨m, hcm⟩ := hids c (List.mem_cons_self _ _)
      have hB := idMatches_uid c m B hcm hm
      have hzero : rest.countP (fun c => idMatches c B) = 0 := by
        rw [List.countP_eq_zero]
        intro x hx hmatch
        obtain ⟨m2, hxm⟩ := hrest x hx
        have hB2 := idMatches_uid x m2 B hxm hmatch
        rw [hB] at hB2
        have hmm : m = m2 := by
          have := Val.uid.injEq m m2
          rw [hB2.symm] at this
          simp at this
          omega
        rw [List.map_cons] at hnd
        have : getK x "id" ∈ rest.map (fun c => getK c "id") :=
          List.mem_map_of_mem _ hx
        rw [hxm, ← hmm, ← hcm] at this
        exact (List.nodup_cons.mp hnd).1 this
      omega

theorem updLlmList_preserves_defaults (tid : Val) (updates : Dict)
    (h : ∀ p ∈ updates, p.1 ≠ "is_default") (l : List Dict) :
    countDefaults (updLlmList tid updates l).1 = countDefaults l := by
  induction l with
  | nil => rfl
  | cons c rest ih =>
    unfold updLlmList
    cases hm : idMatches c tid with
    | true =>
      simp only [hm, if_true]
      cases hv : validate_llm (aliasPathFields (updateD c updates)) with
      | ok _ =>
        simp only [countDefaults, List.countP_cons]
        rw [getTruthy_updateD_not_mem c updates _ h]
      | error e => rfl
    | false =>
      simp only [hm, Bool.false_eq_true, if_false]
      simp only [countDefaults, List.countP_cons]
      have := ih
      simp only [countDefaults] at this
      rw [this]

theorem deleteFirst_sublist (tid : Val) (l : List Dict) :
    (deleteFirst tid l).1.Sublist l := by
  induction l with
  | nil => simp [deleteFirst]
  | cons c rest ih =>
    unfold deleteFirst
    cases hm : idMatches c tid with
    | true =>
      simp only [hm, if_true]
      exact List.sublist_cons_self c rest
    | false =>
      simp only [hm, Bool.false_eq_true, if_false]
      exact ih.cons₂ c

/-- Ids are untouched by `set_default_llm`'s per-entry `is_default`
assignment. -/
theorem getK_id_set_default (tid : Val) (c : Dict) :
    getK (if idMatches c tid then setK c "is_default" (.bool true)
          else setK c "is_default" (.bool false)) "id" = getK c "id" := by
  split <;> exact getK_setK_other _ _ _ _ (by decide)

theorem getTruthy_set_default (tid : Val) (c : Dict) :
    getTruthy (if idMatches c tid then setK c "is_default" (.bool true)
               else setK c "is_default" (.bool false)) "is_default" = idMatches c tid := by
  cases hm : idMatches c tid <;> simp [hm, getTruthy_setK_bool]

/-- One clean operation preserves the invariant. -/
theorem execOp_preserves_llmsOk (kb : KB) (op : LLMOp) (hc : cleanOp op)
    (hinv : llmsOk kb) : llmsOk (execOp kb op) := by
  obtain ⟨hids, hnd, hcount⟩ := hinv
  cases op with
  | create f =>
    dsimp only [execOp]
    unfold create_llm
    cases hv : validate_llm (aliasPathFields f) with
    | error e => exact ⟨hids, hnd, hcount⟩
    | ok _ =>
      dsimp only
      have hfid : getK f "id" = none :=
        getK_eq_none_of_keys f "id" (fun p hp => (hc p hp).2)
      have hfdef : getK f "is_default" = none :=
        getK_eq_none_of_keys f "is_default" (fun p hp => (hc p hp).1)
      have ha_id : getK (setK f "id" (.uid kb.nextId)) "id" = some (.uid kb.nextId) :=
        getK_setK_self _ _ _
      have ha_def : hasKey (setK f "id" (.uid kb.nextId)) "is_default" = false := by
        rw [hasKey_false_iff]
        rw [getK_setK_other _ _ _ _ (by decide)]
        exact hfdef
      simp only [ha_def, Bool.false_eq_true, if_false]
      refine ⟨?_, ?_, ?_⟩
      · intro c hcm
        rcases List.mem_append.mp hcm with hcm | hcm
        · obtain ⟨m, hm, hid⟩ := hids c hcm
          exact ⟨m, by show m < kb.nextId + 1; omega, hid⟩
        · rcases List.mem_singleton.mp hcm with rfl
          refine ⟨kb.nextId, by show kb.nextId < kb.nextId + 1; omega, ?_⟩
          rw [getK_setK_other _ _ _ _ (by decide)]
          exact ha_id
      · rw [List.map_append, List.map_singleton]
        rw [List.nodup_append]
        refine ⟨hnd, List.nodup_singleton _, ?_⟩
        intro x hx hx1
        rcases List.mem_singleton.mp hx1 with rfl
        rw [getK_setK_other _ _ _ _ (by decide), ha_id] at hx
        obtain ⟨c0, hc0, hcx⟩ := List.mem_map.mp hx
        obtain ⟨m, hm, hid⟩ := hids c0 hc0
        rw [hid] at hcx
        have : m = kb.nextId := by
          have := hcx
          simp only [Option.some.injEq, Val.uid.injEq] at this
          exact this
        omega
      · unfold countDefaults
        rw [List.countP_append]
        have : (getTruthy (setK (setK f "id" (.uid kb.nextId)) "is_default" (.bool false))
            "is_default") = false := getTruthy_setK_bool _ _ _
        simp only [List.countP_cons, List.countP_nil, this, Bool.false_eq_true,
          if_false]
        unfold countDefaults at hcount
        omega
  | update t u =>
    dsimp only [execOp]
    unfold update_llm
    have hidkeys : ∀ p ∈ u, p.1 ≠ "id" := fun p hp => (hc p hp).2
    have hdefkeys : ∀ p ∈ u, p.1 ≠ "is_default" := fun p hp => (hc p hp).1
    have hmap := updLlmList_preserves_ids t u hidkeys kb.llms
    refine ⟨?_, ?_, ?_⟩
    · intro c hcm
      have hx : getK c "id" ∈ (updLlmList t u kb.llms).1.map (fun c => getK c "id") :=
        List.mem_map_of_mem _ hcm
      rw [hmap] at hx
      obtain ⟨c0, hc0, heq⟩ := List.mem_map.mp hx
      obtain ⟨m, hm, hid⟩ := hids c0 hc0
      exact ⟨m, hm, by rw [← heq, hid]⟩
    · show ((updLlmList t u kb.llms).1.map (fun c => getK c "id")).Nodup
      rw [hmap]
      exact hnd
    · show countDefaults (updLlmList t u kb.llms).1 ≤ 1
      rw [updLlmList_preserves_defaults t u hdefkeys]
      exact hcount
  | delete t =>
    dsimp only [execOp]
    unfold delete_llm
    have hsub := deleteFirst_sublist t kb.llms
    refine ⟨?_, ?_, ?_⟩
    · intro c hcm
      exact hids c (hsub.subset hcm)
    · exact (hnd.sublist (hsub.map _))
    · exact le_trans (List.Sublist.countP_le _ hsub) hcount
  | setDefault t =>
    dsimp only [execOp]
    unfold set_default_llm
    have hmap : (kb.llms.map (fun c =>
        if idMatches c t then setK c "is_default" (.bool true)
        else setK c "is_default" (.bool false))).map (fun c => getK c "id") =
        kb.llms.map (fun c => getK c "id") := by
      rw [List.map_map]
      exact List.map_congr_left (fun c _ => getK_id_set_default t c)
    refine ⟨?_, ?_, ?_⟩
    · intro c hcm
      have hx : getK c "id" ∈ (kb.llms.map (fun c =>
          if idMatches c t then setK c "is_default" (.bool true)
          else setK c "is_default" (.bool false))).map (fun c => getK c "id") :=
        List.mem_map_of_mem _ hcm
      rw [hmap] at hx
      obtain ⟨c0, hc0, heq⟩ := List.mem_map.mp hx
      obtain ⟨m, hm, hid⟩ := hids c0 hc0
      exact ⟨m, hm, by rw [← heq, hid]⟩
    · show (List.map _ _).Nodup
      rw [hmap]
      exact hnd
    · unfold countDefaults
      rw [List.countP_map]
      have heq : kb.llms.countP
          ((fun c => getTruthy c "is_default") ∘ (fun c =>
            if idMatches c t then setK c "is_default" (.bool true)
            else setK c "is_default" (.bool false))) =
          kb.llms.countP (fun c => idMatches c t) := by
        apply List.countP_congr
        intro c _
        simp only [Function.comp]
        rw [getTruthy_set_default]
      rw [heq]
      exact countP_idMatches_le_one kb.llms t
        (fun c hcm => (hids c hcm).elim (fun m hm => ⟨m, hm.2⟩)) hnd

theorem execOps_llmsOk (ops : List LLMOp) :
    ∀ kb, llmsOk kb → (∀ op ∈ ops, cleanOp op) → llmsOk (execOps kb ops) := by
  induction ops with
  | nil => intro kb h _; exact h
  | cons op rest ih =>
    intro kb h hcl
    have h1 : llmsOk (execOp kb op) :=
      execOp_preserves_llmsOk kb op (hcl op (List.mem_cons_self _ _)) h
    exact ih (execOp kb op) h1 (fun o ho => hcl o (List.mem_cons_of_mem _ ho))

theorem llmsOk_init : llmsOk initKB := by
  refine ⟨?_, ?_, ?_⟩
  · intro c hc
    simp [initKB] at hc
  · simp [initKB]
  · simp [initKB, countDefaults]

/-- **C4 (counterexample).** Two `create_llm` calls whose field dicts carry
`is_default: True` leave two configurations marked default at once: the
invariant is not preserved by arbitrary operation sequences, because
`create_llm` keeps a caller-supplied `is_default` instead of clearing it. -/
theorem create_llm_carries_is_default :
    ¬ countDefaults (execOps initKB
      [.create [("name", .str "A"), ("type", .str "local"), ("model_path", .str "p"),
                ("is_default", .bool true)],
       .create [("name", .str "B"), ("type", .str "local"), ("model_path", .str "p"),
                ("is_default", .bool true)]]).llms ≤ 1 := by
  decide

/-- **C4 (amended).** For operation sequences from the empty collection in
which `create_llm`/`update_llm` payloads carry no `is_default` (or `id`)
keys — i.e. the default flag is only ever touched through `set_default_llm`
— at most one configuration has a truthy `is_default` at any time; and
whenever `set_default_llm(B)` succeeds on such a state, exactly one
configuration is the default afterwards, namely one whose id matches `B`. -/
theorem llm_default_invariant :
    (∀ ops : List LLMOp, (∀ op ∈ ops, cleanOp op) →
      countDefaults (execOps initKB ops).llms ≤ 1) ∧
    (∀ (ops : List LLMOp) (B : Val), (∀ op ∈ ops, cleanOp op) →
      (set_default_llm (execOps initKB ops) B).2 = true →
      countDefaults (set_default_llm (execOps initKB ops) B).1.llms = 1 ∧
      (∀ c ∈ (set_default_llm (execOps initKB ops) B).1.llms,
        getTruthy c "is_default" = true → idMatches c B = true)) := by
  constructor
  · intro ops hcl
    exact (execOps_llmsOk ops initKB llmsOk_init hcl).2.2
  · intro ops B hcl hfound
    obtain ⟨hids, hnd, _⟩ := execOps_llmsOk ops initKB llmsOk_init hcl
    have hcnt : countDefaults (set_default_llm (execOps initKB ops) B).1.llms =
        (execOps initKB ops).llms.countP (fun c => idMatches c B) := by
      unfold set_default_llm countDefaults
      rw [List.countP_map]
      apply List.countP_congr
      intro c _
      simp only [Function.comp]
      rw [getTruthy_set_default]
    have hle : (execOps initKB ops).llms.countP (fun c => idMatches c B) ≤ 1 :=
      countP_idMatches_le_one _ B
        (fun c hcm => (hids c hcm).elim (fun m hm => ⟨m, hm.2⟩)) hnd
    have hpos : 0 < (execOps initKB ops).llms.countP (fun c => idMatches c B) := by
      unfold set_default_llm at hfound
      simp only at hfound
      rw [List.any_eq_true] at hfound
      obtain ⟨c, hcm, hmatch⟩ := hfound
      rw [List.countP_pos_iff]
      exact ⟨c, hcm, hmatch⟩
    refine ⟨by omega, ?_⟩
    intro c hcm htruthy
    unfold set_default_llm at hcm
    simp only [List.mem_map] at hcm
    obtain ⟨c0, hc0, rfl⟩ := hcm
    have hg := getTruthy_set_default B c0
    rw [htruthy] at hg
    cases hm : idMatches c0 B with
    | false => rw [hm] at hg; simp at hg
    | true =>
      unfold idMatches
      rw [if_pos rfl]
      rw [getK_setK_other _ _ _ _ (by decide)]
      unfold idMatches at hm
      exact hm

/-- **C4 (witness).** A concrete clean sequence — create two configurations,
make the second the default — ends with exactly one default. -/
theorem llm_default_invariant_witness :
    countDefaults (set_default_llm (execOps initKB
      [.create [("name", .str "A"), ("type", .str "local"), ("model_path", .str "p")],
       .create [("name", .str "B"), ("type", .str "local"), ("model_path", .str "q")]])
      (.uid 1)).1.llms = 1 := by
  have hcl : ∀ op ∈ ([.create [("name", .str "A"), ("type", .str "local"), ("model_path", .str "p")],
       .create [("name", .str "B"), ("type", .str "local"), ("model_path", .str "q")]] : List LLMOp),
      cleanOp op := by
    intro op hop
    rcases List.mem_cons.mp hop with rfl | hop
    · intro p hp
      rcases List.mem_cons.mp hp with rfl | hp
      · exact ⟨by decide, by decide⟩
      · rcases List.mem_cons.mp hp with rfl | hp
        · exact ⟨by decide, by decide⟩
        · rcases List.mem_singleton.mp hp with rfl
          exact ⟨by decide, by decide⟩
    · rcases List.mem_singleton.mp hop with rfl
      intro p hp
      rcases List.mem_cons.mp hp with rfl | hp
      · exact ⟨by decide, by decide⟩
      · rcases List.mem_cons.mp hp with rfl | hp
        · exact ⟨by decide, by decide⟩
        · rcases List.mem_singleton.mp hp with rfl
          exact ⟨by decide, by decide⟩
  exact (llm_default_invariant.2
    [.create [("name", .str "A"), ("type", .str "local"), ("model_path", .str "p")],
     .create [("name", .str "B"), ("type", .str "local"), ("model_path", .str "q")]]
    (.uid 1) hcl (by decide)).1

-- C3: check_ethics returns the most severe fired verdict --

/-- Claim-side severity order: `block` > `warn` > `pass`. -/
def sevOf (r : String) : Nat := if r == "block" then 2 else if r == "warn" then 1 else 0

/-- The claim's selection rule, written from the spec's words: the first
(registration-order) fired check whose severity is maximal among all fired
checks; the all-pass verdict when nothing fired. -/
def claimMostSevere (cs : List Verdict) : Verdict :=
  (cs.find? (fun c => cs.all (fun d => sevOf d.result ≤ sevOf c.result))).getD passVerdict

/-- **C3.** `check_ethics` returns exactly the claim's most-severe-first
selection of the fired checks — `block` beats `warn`, ties go to the first
registered check, and the all-pass verdict is returned when nothing fires.
In particular, a payload containing `SSN` evaluated for `create_case` with
an actor unauthorized in the context's jurisdiction gets the `block`
verdict citing ABA Model Rule 5.5 (unauthorized practice), not the
confidentiality `warn`. -/
theorem check_ethics_most_severe :
    (∀ (data : Dict) (action_type : String) (user : Option Dict) (context : Option Dict),
      check_ethics data action_type user context =
        claimMostSevere (checksOf data action_type user context)) ∧
    check_ethics [("text", .str "SSN 123")] "create_case" none
        (some [("jurisdiction", .str "TN")]) =
      ⟨"block", "Unauthorized practice in TN. See ABA Model Rule 5.5",
        "ABA Model Rule 5.5"⟩ ∧
    check_confidentiality [("text", .str "SSN 123")] =
      ("warn", "Potential confidential info detected: \x27\\bSSN\\b\x27. See ABA Model Rule 1.6") := by
  refine ⟨?_, by rfl, by rfl⟩
  intro data a u ctx
  have h1 : (∃ e, check_confidentiality data = ("warn", e)) ∨
      check_confidentiality data = ("pass", "") := by
    unfold check_confidentiality
    cases confPatterns.find? (fun w => findWordCI w (pyRepr (.dict data))) with
    | some w => exact Or.inl ⟨_, rfl⟩
    | none => exact Or.inr rfl
  have h2 : (∃ e, check_conflict_of_interest data (ctx.getD []) = ("block", e)) ∨
      check_conflict_of_interest data (ctx.getD []) = ("pass", "") := by
    unfold check_conflict_of_interest
    cases getK data "client" with
    | some cl =>
      dsimp only
      split
      · exact Or.inl ⟨_, rfl⟩
      · exact Or.inr rfl
    | none => exact Or.inr rfl
  have h3 : (∃ e, check_unauthorized_practice u (ctx.getD []) = ("block", e)) ∨
      check_unauthorized_practice u (ctx.getD []) = ("pass", "") := by
    unfold check_unauthorized_practice
    cases getK (ctx.getD []) "jurisdiction" with
    | some j =>
      dsimp only
      split
      · exact Or.inl ⟨_, rfl⟩
      · exact Or.inr rfl
    | none => exact Or.inr rfl
  unfold check_ethics checksOf
  by_cases ha2 : a ∈ ["create_client", "update_client", "create_case", "update_case"] <;>
    by_cases ha3 : a ∈ ["create_case", "update_case", "legal_action"] <;>
      rcases h1 with ⟨e1, he1⟩ | he1 <;>
        rcases h2 with ⟨e2, he2⟩ | he2 <;>
          rcases h3 with ⟨e3, he3⟩ | he3 <;>
            simp [he1, he2, he3, ha2, ha3, claimMostSevere, sevOf, passVerdict]

-- C2: run_llm_query never raises and contains adapter failures --

theorem strApp_ne_empty (s t : String) (h : s ≠ "") : s ++ t ≠ "" := by
  intro he
  apply h
  have hd := congrArg String.data he
  rw [String.data_append] at hd
  have h2 := List.append_eq_nil.mp hd
  cases s
  simp_all

theorem anthropicExtract_ok_snd (r : Val) (model : String) (pr : String × String)
    (h : anthropicExtract r model = .ok pr) :
    ∃ content tok, pr = (content, "Anthropic model: " ++ model ++ ", tokens used: " ++ tok) := by
  unfold anthropicExtract at h
  simp only [bind, Except.bind, pure, Except.pure] at h
  repeat' split at h
  all_goals first
    | (cases h; exact ⟨_, _, rfl⟩)
    | simp_all

theorem anthropicPipeline_ok_snd (jb : Except String Val) (model : String)
    (pr : String × String)
    (h : (jb >>= fun result => anthropicExtract result model) = .ok pr) :
    ∃ content tok, pr = (content, "Anthropic model: " ++ model ++ ", tokens used: " ++ tok) := by
  cases jb with
  | error e => simp [Bind.bind, Except.bind] at h
  | ok v =>
    exact anthropicExtract_ok_snd v model pr (by simpa [Bind.bind, Except.bind] using h)

/-- **C2.** `run_llm_query` always returns a `(response, explainability)`
pair — in the embedding its result type alone rules out an escaping
exception, mirroring the code's per-adapter handlers — with a non-empty
explainability note on every path; and each failure class named by the
claim (missing API key, missing local model path, unknown type/provider,
backend error) yields the corresponding error-marked response text with the
neutral note. -/
theorem run_llm_query_contained :
    (∀ llm prompt env, (run_llm_query llm prompt env).2 ≠ "") ∧
    (∀ llm prompt env, openaiCond llm = true → keyMissing llm.api_key = true →
      run_llm_query llm prompt env = ("[Error: No API key configured for this LLM]", noInfo)) ∧
    (∀ llm prompt env e, openaiCond llm = true → keyMissing llm.api_key = false →
      env.openaiResult = .error e →
      run_llm_query llm prompt env = ("[OpenAI API error: " ++ e ++ "]", noInfo)) ∧
    (∀ llm prompt env, openaiCond llm = false → anthropicCond llm = true →
      keyMissing llm.api_key = true →
      run_llm_query llm prompt env = ("[Error: No API key configured for Anthropic]", noInfo)) ∧
    (∀ llm prompt env e, openaiCond llm = false → anthropicCond llm = true →
      keyMissing llm.api_key = false → env.anthropicResult = .error e →
      run_llm_query llm prompt env = ("[Anthropic API error: " ++ e ++ "]", noInfo)) ∧
    (∀ llm prompt env, openaiCond llm = false → anthropicCond llm = false →
      hfCond llm = true → keyMissing llm.api_key = true →
      run_llm_query llm prompt env = ("[Error: No API key configured for HuggingFace]", noInfo)) ∧
    (∀ llm prompt env e, openaiCond llm = false → anthropicCond llm = false →
      hfCond llm = true → keyMissing llm.api_key = false → env.hfResult = .error e →
      run_llm_query llm prompt env = ("[HuggingFace API error: " ++ e ++ "]", noInfo)) ∧
    (∀ llm prompt env, openaiCond llm = false → anthropicCond llm = false →
      hfCond llm = false → localCond llm = true → env.localResult = .importErr →
      run_llm_query llm prompt env =
        ("[transformers not installed: cannot run local LLM \x27" ++ nameOf llm ++
           "\x27]\nPrompt: " ++ prompt ++ "\nResponse: This is a mock local LLM response.",
         "This output was generated by a mock local LLM. No real legal analysis was performed.")) ∧
    (∀ llm prompt env r, openaiCond llm = false → anthropicCond llm = false →
      hfCond llm = false → localCond llm = true → env.localResult = .genOk r →
      keyMissing llm.path_or_url = true →
      run_llm_query llm prompt env = ("[Error: No local model path configured]", noInfo)) ∧
    (∀ llm prompt env e, openaiCond llm = false → anthropicCond llm = false →
      hfCond llm = false → localCond llm = true → env.localResult = .raiseErr e →
      keyMissing llm.path_or_url = false →
      run_llm_query llm prompt env = ("[Local LLM error: " ++ e ++ "]", noInfo)) ∧
    (∀ llm prompt env, openaiCond llm = false → anthropicCond llm = false →
      hfCond llm = false → localCond llm = false →
      run_llm_query llm prompt env =
        ("[Unknown LLM type/provider: " ++ tyStr llm ++ " / " ++ providerOf llm ++ "]", noInfo)) := by
  refine ⟨?_, ?_, ?_, ?_, ?_, ?_, ?_, ?_, ?_, ?_, ?_⟩
  · intro llm prompt env
    unfold run_llm_query
    repeat' split
    all_goals dsimp only
    all_goals try (first
      | decide
      | ((repeat' apply strApp_ne_empty) <;> decide))
    rename_i resp heqA hst
    cases hpipe : (resp.jsonBody >>= fun r =>
        anthropicExtract r (llm.model.getD "claude-3-opus-20240229")) with
    | ok pr =>
      dsimp only
      obtain ⟨content, tok, rfl⟩ := anthropicPipeline_ok_snd _ _ _ hpipe
      dsimp only
      (repeat' apply strApp_ne_empty) <;> decide
    | error e =>
      dsimp only
      decide
  · intro llm prompt env h1 h2
    simp [run_llm_query, h1, h2]
  · intro llm prompt env e h1 h2 h3
    simp [run_llm_query, h1, h2, h3]
  · intro llm prompt env h1 h2 h3
    simp [run_llm_query, h1, h2, h3]
  · intro llm prompt env e h1 h2 h3 h4
    simp [run_llm_query, h1, h2, h3, h4]
  · intro llm prompt env h1 h2 h3 h4
    simp [run_llm_query, h1, h2, h3, h4]
  · intro llm prompt env e h1 h2 h3 h4 h5
    simp [run_llm_query, h1, h2, h3, h4, h5]
  · intro llm prompt env h1 h2 h3 h4 h5
    simp [run_llm_query, h1, h2, h3, h4, h5]
  · intro llm prompt env r h1 h2 h3 h4 h5 h6
    simp [run_llm_query, h1, h2, h3, h4, h5, h6]
  · intro llm prompt env e h1 h2 h3 h4 h5 h6
    simp [run_llm_query, h1, h2, h3, h4, h5, h6]
  · intro llm prompt env h1 h2 h3 h4
    simp [run_llm_query, h1, h2, h3, h4]

/-- **C2 (witness).** The spec's concrete scenario 3: a `local`
configuration whose model path does not exist (the pipeline construction
raises) yields an error-marked text and a non-empty note, not an
exception. -/
theorem run_llm_query_contained_witness :
    run_llm_query
        { ty := some "local", name := some "LocalModel",
          path_or_url := some "/models/missing.bin" }
        "hello"
        { localResult := .raiseErr "path does not exist" } =
      ("[Local LLM error: path does not exist]", noInfo) ∧
    (run_llm_query
        { ty := some "local", name := some "LocalModel",
          path_or_url := some "/models/missing.bin" }
        "hello"
        { localResult := .raiseErr "path does not exist" }).2 ≠ "" :=
  ⟨run_llm_query_contained.2.2.2.2.2.2.2.2.2.1
      { ty := some "local", name := some "LocalModel",
        path_or_url := some "/models/missing.bin" }
      "hello"
      { localResult := .raiseErr "path does not exist" }
      "path does not exist" (by decide) (by decide) (by decide) (by decide) rfl (by decide),
    run_llm_query_contained.1
      { ty := some "local", name := some "LocalModel",
        path_or_url := some "/models/missing.bin" }
      "hello"
      { localResult := .raiseErr "path does not exist" }⟩
